import Mathlib

/-!
# Chatterino IRC message handling

A shallow embedding of `src/providers/twitch/IrcMessageHandler.cpp`.

* Qt strings are Lean strings, `QString::split` is `QString.split`. A `QString`
  holds UTF-16 code units (`QString.utf16`); `remove(0, 1)` removes one of them.
* `QMap` is an association list with unique keys.
* A handler is a function from the event and the server state to the list of
  calls it makes on its collaborators, in program order; `TwitchIrcServer.run` applies
  such a list to the server state.
-/

namespace Chatterino

/-! ## Qt value types -/

abbrev QString := String

/-- The pieces of `s` between occurrences of `sep`, empty pieces kept
(`QString::split` with the default `KeepEmptyParts`). -/
def splitChars (sep : Char) : List Char → List (List Char)
  | [] => [[]]
  | c :: cs =>
    if c = sep then [] :: splitChars sep cs
    else
      match splitChars sep cs with
      | [] => [[c]]
      | p :: ps => (c :: p) :: ps

/-- `QString::split(QChar sep)`. -/
def QString.split (s : QString) (sep : Char) : List QString :=
  (splitChars sep s.data).map String.mk

/-- `QMap<QString, QString>`: keys are unique. -/
abbrev QMap := List (QString × QString)

/-- `QMap::insert`: an existing entry for the key is replaced. -/
def QMap.insert (m : QMap) (k v : QString) : QMap :=
  (k, v) :: m.filter (fun p => p.1 ≠ k)

/-- `QMap::contains`. -/
def QMap.contains (m : QMap) (k : QString) : Bool :=
  m.any (fun p => p.1 == k)

/-- `QMap::value(key)`, a default-constructed (empty) string for an absent key. -/
def QMap.value (m : QMap) (k : QString) : QString :=
  (m.lookup k).getD ""

/-! ## parseBadges -/

/-- The body of the loop of `parseBadges`, for one `badgeData`. -/
def parseBadgesStep (badges : QMap) (badgeData : QString) : QMap :=
  match QString.split badgeData '/' with
  | [name, version] => QMap.insert badges name version
  | _ => badges

/-- The loop of `parseBadges` over the comma-separated pieces. -/
def parseBadgesLoop (badges : QMap) (pieces : List QString) : QMap :=
  pieces.foldl parseBadgesStep badges

/-- `parseBadges(QString badgesString)`. -/
def parseBadges (badgesString : QString) : QMap :=
  parseBadgesLoop [] (QString.split badgesString ',')


/-! ## IRC messages (Communi) -/

/-- The tag dictionary of an IRC message (`QVariantMap`); every value is a string. -/
abbrev IrcTags := List (QString × QString)

/-- A `QVariant` holding a string; `none` is the invalid variant. -/
abbrev QVariant := Option QString

/-- `QVariant::isValid`. -/
def QVariant.isValid (v : QVariant) : Bool := v.isSome

/-- `QVariant::toString`, the empty string for an invalid variant. -/
def QVariant.toString (v : QVariant) : QString := v.getD ""

/-- `tags.find(key)`: `none` stands for `tags.end()`. -/
def IrcTags.find (tags : IrcTags) (key : QString) : QVariant := tags.lookup key

/-- `tags.value(key)`: a default-constructed (invalid) variant for an absent key. -/
def IrcTags.value (tags : IrcTags) (key : QString) : QVariant := tags.lookup key

/-- `tags.value(key, defaultValue)`. -/
def IrcTags.valueOr (tags : IrcTags) (key defaultValue : QString) : QVariant :=
  some ((tags.lookup key).getD defaultValue)

/-- `Communi::IrcMessage`, the parts the handlers read. -/
structure IrcMessage where
  command : QString
  parameters : List QString
  tags : IrcTags
  nick : QString
deriving DecidableEq, Repr

/-- `IrcMessage::parameter(index)`: the empty string when `index` is out of range. -/
def IrcMessage.parameter (message : IrcMessage) (index : Nat) : QString :=
  message.parameters.getD index ""

/-- `IrcMessage::tag(name)`. -/
def IrcMessage.tag (message : IrcMessage) (name : QString) : QVariant :=
  IrcTags.find message.tags name

/-- `Communi::IrcPrivateMessage`: `target()`, `content()` and `isAction()` are
what the library computed from the raw line. -/
structure IrcPrivateMessage extends IrcMessage where
  target : QString
  content : QString
  isAction : Bool
deriving DecidableEq, Repr

/-- `Communi::IrcNoticeMessage`. -/
structure IrcNoticeMessage extends IrcMessage where
  target : QString
  content : QString
deriving DecidableEq, Repr

/-! ## Messages -/

/-- `MessageFlag`, the facets this file and the spec name. -/
inductive MessageFlag
  | Subscription
  | Highlighted
  | Whisper
  | DoNotTriggerNotification
  | DoNotLog
  | Disabled
deriving DecidableEq, Repr

/-- `MessageFlags`: one bit per flag. -/
structure MessageFlags where
  subscription : Bool
  highlighted : Bool
  whisper : Bool
  doNotTriggerNotification : Bool
  doNotLog : Bool
  disabled : Bool
deriving DecidableEq, Repr

/-- A default-constructed flag set. -/
def MessageFlags.none : MessageFlags :=
  ⟨false, false, false, false, false, false⟩

/-- `FlagsEnum::set(flag)`. -/
def MessageFlags.set (fl : MessageFlags) : MessageFlag → MessageFlags
  | .Subscription => { fl with subscription := true }
  | .Highlighted => { fl with highlighted := true }
  | .Whisper => { fl with whisper := true }
  | .DoNotTriggerNotification => { fl with doNotTriggerNotification := true }
  | .DoNotLog => { fl with doNotLog := true }
  | .Disabled => { fl with disabled := true }

/-- `FlagsEnum::unset(flag)`. -/
def MessageFlags.unset (fl : MessageFlags) : MessageFlag → MessageFlags
  | .Subscription => { fl with subscription := false }
  | .Highlighted => { fl with highlighted := false }
  | .Whisper => { fl with whisper := false }
  | .DoNotTriggerNotification => { fl with doNotTriggerNotification := false }
  | .DoNotLog => { fl with doNotLog := false }
  | .Disabled => { fl with disabled := false }

/-- `FlagsEnum::has(flag)`. -/
def MessageFlags.has (fl : MessageFlags) : MessageFlag → Bool
  | .Subscription => fl.subscription
  | .Highlighted => fl.highlighted
  | .Whisper => fl.whisper
  | .DoNotTriggerNotification => fl.doNotTriggerNotification
  | .DoNotLog => fl.doNotLog
  | .Disabled => fl.disabled

/-- A handle on a channel object (`ChannelPtr`, `Channel *`). -/
inductive ChannelPtr
  | empty
  | channel (index : Nat)
  | whispers
  | mentions
deriving DecidableEq, Repr

/-- `MessageParseArgs`. -/
structure MessageParseArgs where
  trimSubscriberUsername : Bool
  isStaffOrBroadcaster : Bool
  isReceivedWhisper : Bool
deriving DecidableEq, Repr

/-- A default-constructed `MessageParseArgs`. -/
def MessageParseArgs.default : MessageParseArgs := ⟨false, false, false⟩

/-- The constructor arguments of a `TwitchMessageBuilder`. -/
structure BuilderInput where
  channel : ChannelPtr
  ircMessage : IrcMessage
  args : MessageParseArgs
  content : QString
  isAction : Bool
deriving DecidableEq, Repr

/-- The builder call a message comes from, with its arguments. -/
inductive MessageOrigin
  | systemMessage (text : QString)
  | timeoutMessage (username durationInSeconds reason : QString) (multipleTimes : Bool)
  | twitchMessage (input : BuilderInput)
deriving DecidableEq, Repr

/-- `Message`: what built it, its flags, and the fields the handlers read. -/
structure Message where
  origin : MessageOrigin
  flags : MessageFlags
  displayName : QString
  id : QString
deriving DecidableEq, Repr

/-- `MessagePtr`. -/
abbrev MessagePtr := Message

/-- What the handlers obtain from code outside this file: the ignore and
highlight rules, the parts of message building that are not flags, the settings,
the current account, and the Qt and helper functions whose results are only
passed on. -/
structure Collaborators where
  isIgnored : BuilderInput → Bool
  highlightMatches : BuilderInput → Bool
  displayName : BuilderInput → QString
  userName : BuilderInput → QString
  messageId : BuilderInput → QString
  systemMessageFlags : MessageFlags
  timeoutMessageFlags : MessageFlags
  parseTagString : QString → QString
  toInt : QString → Int
  mergeTimeout : List Message → Message → List Message
  hideModerated : Bool
  inlineWhispers : Bool
  showJoins : Bool
  currentUserName : QString

/-- Modelled from the spec: `MessageBuilder(systemMessage, text)` (MessageBuilder.cpp
is not among the sources), the system-message factory: the message under
construction records its text; the flags the factory starts with are a
parameter. -/
def MessageBuilder.systemMessage (env : Collaborators) (text : QString) : Message :=
  { origin := .systemMessage text, flags := env.systemMessageFlags,
    displayName := "", id := "" }

/-- `makeSystemMessage(text)`, that is `MessageBuilder(systemMessage, text).release()`. -/
def makeSystemMessage (env : Collaborators) (text : QString) : MessagePtr :=
  MessageBuilder.systemMessage env text

/-- Modelled from the spec: `MessageBuilder(timeoutMessage, username,
durationInSeconds, reason, multipleTimes)` (not among the sources): a timeout
message parameterized by username, duration and reason (§4.5). -/
def MessageBuilder.timeoutMessage (env : Collaborators)
    (username durationInSeconds reason : QString) (multipleTimes : Bool) : Message :=
  { origin := .timeoutMessage username durationInSeconds reason multipleTimes,
    flags := env.timeoutMessageFlags, displayName := "", id := "" }

/-- `TwitchMessageBuilder`: its constructor arguments and the flags of the
message under construction (`builder->flags`). -/
structure TwitchMessageBuilder where
  input : BuilderInput
  flags : MessageFlags
deriving DecidableEq, Repr

/-- The constructor `TwitchMessageBuilder(channel, ircMessage, args, content, isAction)`:
the message under construction starts with a default-constructed flag set. -/
def TwitchMessageBuilder.new (channel : ChannelPtr) (ircMessage : IrcMessage)
    (args : MessageParseArgs) (content : QString) (isAction : Bool) : TwitchMessageBuilder :=
  { input := ⟨channel, ircMessage, args, content, isAction⟩, flags := MessageFlags.none }

/-- `TwitchMessageBuilder::isIgnored`: the answer of the ignore filter, an external
collaborator (§4.3). -/
def TwitchMessageBuilder.isIgnored (env : Collaborators) (b : TwitchMessageBuilder) : Bool :=
  env.isIgnored b.input

/-- Modelled from the spec: `TwitchMessageBuilder::build` (TwitchMessageBuilder.cpp
is not among the sources). The flags set on the builder are kept; when the
highlight rules match, Highlighted is set unless the message is a subscription
event (§4.3). -/
def TwitchMessageBuilder.build (env : Collaborators) (b : TwitchMessageBuilder) : MessagePtr :=
  { origin := .twitchMessage b.input,
    flags := if env.highlightMatches b.input && !b.flags.has .Subscription
             then b.flags.set .Highlighted else b.flags,
    displayName := env.displayName b.input,
    id := env.messageId b.input }

/-! ## Channels and the server -/

/-- `TwitchChannel::RoomModes`. -/
structure RoomModes where
  submode : Bool
  r9k : Bool
  emoteOnly : Bool
  followerOnly : Int
  slowMode : Int
  broadcasterLang : QString
deriving DecidableEq, Repr

/-- The state a `TwitchChannel` adds to a `Channel`. -/
structure TwitchChannel where
  roomId : QString
  roomModes : RoomModes
  vip : Bool
  staff : Bool
  mod : Bool
  joinedUsers : List QString
  partedUsers : List QString
deriving DecidableEq, Repr

/-- `Channel`. `messages` is the message store and `messageLimit` its bound
(`LimitedQueue`); `twitch` is `some` exactly when the object is a
`TwitchChannel` (`dynamic_cast<TwitchChannel *>` succeeds), `recentChatters` is
`some` exactly when it is a `ChannelChatters`. -/
structure Channel where
  name : QString
  broadcaster : Bool
  messages : List Message
  messageLimit : Nat
  modList : List QString
  twitch : Option TwitchChannel
  recentChatters : Option (List QString)
deriving DecidableEq, Repr

/-- Modelled from the spec: `Channel::getEmpty()` (Channel.cpp is not among the
sources), the placeholder a lookup returns when no live channel has the name.
The handlers never write to it. -/
def Channel.getEmpty : Channel :=
  { name := "", broadcaster := false, messages := [], messageLimit := 0, modList := [],
    twitch := Option.none, recentChatters := Option.none }

/-- Modelled from the spec: `Channel::isEmpty` (not among the sources): true of the
placeholder, whose name is empty; a live channel has a canonical, non-empty
name (§4.2). -/
def Channel.isEmpty (c : Channel) : Bool := c.name = ""

/-- `Channel::isBroadcaster`. -/
def Channel.isBroadcaster (c : Channel) : Bool := c.broadcaster

/-- `TwitchIrcServer`: the open channels and the special channels. -/
structure TwitchIrcServer where
  channels : List Channel
  whispersChannel : Channel
  mentionsChannel : Channel
  lastUserThatWhisperedMe : QString
deriving DecidableEq, Repr

/-- Position of the first channel named `name`. -/
def lookupIndex (name : QString) : List Channel → Option Nat
  | [] => Option.none
  | c :: cs => if c.name = name then some 0 else (lookupIndex name cs).map (· + 1)

/-- Modelled from the spec: `TwitchIrcServer::getChannelOrEmpty` (the server is
not among the sources): the live channel of that name, or the empty channel. -/
def TwitchIrcServer.getChannelOrEmpty (server : TwitchIrcServer) (name : QString) : ChannelPtr :=
  match lookupIndex name server.channels with
  | some i => .channel i
  | Option.none => .empty

/-- The channel object behind a handle. -/
def TwitchIrcServer.deref (server : TwitchIrcServer) : ChannelPtr → Channel
  | .empty => Channel.getEmpty
  | .channel i => server.channels.getD i Channel.getEmpty
  | .whispers => server.whispersChannel
  | .mentions => server.mentionsChannel

/-- Modelled from the spec: `TwitchIrcServer::forEachChannel` (not among the
sources): the handles of the open channels, in order. -/
def TwitchIrcServer.forEachChannel (server : TwitchIrcServer) : List ChannelPtr :=
  (List.range server.channels.length).map ChannelPtr.channel

/-- Modelled from the spec: `TwitchIrcServer::forEachChannelAndSpecialChannels`
(not among the sources): every open channel, then the special channels. -/
def TwitchIrcServer.forEachChannelAndSpecialChannels (server : TwitchIrcServer) :
    List ChannelPtr :=
  server.forEachChannel ++ [.whispers, .mentions]

/-- Modelled from the spec: `trimChannelName` (TwitchHelpers.cpp is not among the
sources). Strips one leading `#` if present; fails when the result is empty (§4.2). -/
def trimChannelName (channelName : QString) : Option QString :=
  let stripped : QString :=
    match channelName.data with
    | '#' :: rest => String.mk rest
    | _ => channelName
  if stripped = "" then Option.none else some stripped

/-- The UTF-16 code units of a character: one unit in the Basic Multilingual
Plane, a surrogate pair (high, low) outside it. -/
def utf16Units (c : Char) : List Nat :=
  if c.toNat < 0x10000 then [c.toNat]
  else [0xD800 + (c.toNat - 0x10000) / 0x400, 0xDC00 + (c.toNat - 0x10000) % 0x400]

/-- The UTF-16 code units a `QString` holds. -/
def utf16OfChars : List Char → List Nat
  | [] => []
  | c :: cs => utf16Units c ++ utf16OfChars cs

/-- The UTF-16 code units a `QString` holds. -/
def QString.utf16 (s : QString) : List Nat := utf16OfChars s.data

/-- `QString::remove(0, 1)` as code units: the first UTF-16 code unit is removed. -/
def QString.removeFirstUnits (s : QString) : List Nat := (QString.utf16 s).drop 1

/-- `QString::remove(0, 1)`: the string without its first UTF-16 code unit. For a
first character in the Basic Multilingual Plane that is the rest of the string.
For a first character outside it only the high surrogate is removed and what is
left starts with a lone low surrogate: it is not a well-formed string and the
result is `none` (its code units are `QString.removeFirstUnits`). -/
def QString.removeFirst (s : QString) : Option QString :=
  match s.data with
  | [] => some ""
  | c :: rest => if c.toNat < 0x10000 then some (String.mk rest) else Option.none

/-- `QString::startsWith(prefix, Qt::CaseInsensitive)` for an ASCII prefix. -/
def QString.startsWithCaseInsensitive (s pre : QString) : Bool :=
  (pre.data.map Char.toLower).isPrefixOf (s.data.map Char.toLower)

/-! ## Calls on collaborators -/

/-- A call a handler makes on a collaborator. `getChannelOrEmptyUtf16` is the
lookup of a name that is not a well-formed string, given by its UTF-16 code
units; no channel has such a name and the lookup returns the empty channel. -/
inductive Call
  | getChannelOrEmpty (name : QString)
  | getChannelOrEmptyUtf16 (nameUnits : List Nat)
  | addMessage (chan : ChannelPtr) (msg : MessagePtr) (overridingFlags : Option MessageFlags)
  | addRecentChatter (chan : ChannelPtr) (displayName : QString)
  | triggerHighlights (input : BuilderInput)
  | addHighlight (msg : MessagePtr)
  | setRoomId (chan : ChannelPtr) (roomId : QString)
  | setRoomModes (chan : ChannelPtr) (roomModes : RoomModes)
  | roomModesChanged (chan : ChannelPtr)
  | disableAllMessages (chan : ChannelPtr)
  | addOrReplaceTimeout (chan : ChannelPtr) (msg : MessagePtr)
  | deleteMessage (chan : ChannelPtr) (messageID : QString)
  | repaintVisibleChatWidgets (chan : ChannelPtr)
  | forceLayoutChannelViews
  | setVIP (chan : ChannelPtr) (value : Bool)
  | setStaff (chan : ChannelPtr) (value : Bool)
  | setMod (chan : ChannelPtr) (value : Bool)
  | setLastUserThatWhisperedMe (userName : QString)
  | modListAppend (chan : ChannelPtr) (nick : QString)
  | addJoinedUser (chan : ChannelPtr) (nick : QString)
  | addPartedUser (chan : ChannelPtr) (nick : QString)
  | log (text : QString)
deriving DecidableEq, Repr

/-- Replaces the element at position `i`. -/
def modifyAt {α : Type} (f : α → α) : Nat → List α → List α
  | _, [] => []
  | 0, a :: as => f a :: as
  | i + 1, a :: as => a :: modifyAt f i as

/-- Applies `f` to the channel object behind a handle. The shared empty channel
is not part of the server state. -/
def TwitchIrcServer.modify (server : TwitchIrcServer) (f : Channel → Channel) :
    ChannelPtr → TwitchIrcServer
  | .empty => server
  | .channel i => { server with channels := modifyAt f i server.channels }
  | .whispers => { server with whispersChannel := f server.whispersChannel }
  | .mentions => { server with mentionsChannel := f server.mentionsChannel }

/-- Applies `f` to the `TwitchChannel` part of a channel, when it has one. -/
def Channel.modifyTwitch (f : TwitchChannel → TwitchChannel) (c : Channel) : Channel :=
  { c with twitch := c.twitch.map f }

/-- Modelled from the spec: the append of the bounded message store
(`messages/LimitedQueue.hpp` is included by the source but is not among the
sources). The message is appended in arrival order; the store is bounded (§1,
§3, §6), and once the bound is exceeded the oldest messages are evicted. -/
def pushBack (limit : Nat) (messages : List Message) (msg : MessagePtr) : List Message :=
  (messages ++ [msg]).drop ((messages ++ [msg]).length - limit)

/-- Modelled from the spec: `Channel::addMessage` (Channel.cpp is not among the
sources): the message is appended to the bounded store of the channel. -/
def Channel.addMessage (msg : MessagePtr) (c : Channel) : Channel :=
  { c with messages := pushBack c.messageLimit c.messages msg }

/-- Modelled from the spec: `Channel::disableAllMessages` (not among the sources):
every stored message is marked disabled, none is removed (§4.5). -/
def Channel.disableAllMessages (c : Channel) : Channel :=
  { c with messages := c.messages.map (fun m => { m with flags := m.flags.set .Disabled }) }

/-- Modelled from the spec: `Channel::deleteMessage` (not among the sources): the
store removes the message with that id, if present (§4.5). -/
def Channel.deleteMessage (messageID : QString) (c : Channel) : Channel :=
  { c with messages := c.messages.filter (fun m => m.id ≠ messageID) }

/-- Modelled from the spec: `Channel::addOrReplaceTimeout` (not among the
sources): the coalescing policy is the store's own (§4.5). -/
def Channel.addOrReplaceTimeout (env : Collaborators) (msg : MessagePtr) (c : Channel) : Channel :=
  { c with messages := env.mergeTimeout c.messages msg }

/-- Modelled from the spec: `ChannelChatters::addRecentChatter` (not among the
sources): the name enters the recent-chatter cache. -/
def Channel.addRecentChatter (displayName : QString) (c : Channel) : Channel :=
  { c with recentChatters := c.recentChatters.map (fun l => l ++ [displayName]) }

/-- The effect of one call on the server state. Calls on the user interface, the
highlight controller and the log leave it unchanged. -/
def TwitchIrcServer.apply (env : Collaborators) (server : TwitchIrcServer) :
    Call → TwitchIrcServer
  | .addMessage chan msg _ => server.modify (Channel.addMessage msg) chan
  | .addRecentChatter chan name => server.modify (Channel.addRecentChatter name) chan
  | .setRoomId chan roomId =>
    server.modify (Channel.modifyTwitch (fun t => { t with roomId := roomId })) chan
  | .setRoomModes chan roomModes =>
    server.modify (Channel.modifyTwitch (fun t => { t with roomModes := roomModes })) chan
  | .disableAllMessages chan => server.modify Channel.disableAllMessages chan
  | .addOrReplaceTimeout chan msg => server.modify (Channel.addOrReplaceTimeout env msg) chan
  | .deleteMessage chan messageID => server.modify (Channel.deleteMessage messageID) chan
  | .setVIP chan value =>
    server.modify (Channel.modifyTwitch (fun t => { t with vip := value })) chan
  | .setStaff chan value =>
    server.modify (Channel.modifyTwitch (fun t => { t with staff := value })) chan
  | .setMod chan value =>
    server.modify (Channel.modifyTwitch (fun t => { t with mod := value })) chan
  | .setLastUserThatWhisperedMe userName => { server with lastUserThatWhisperedMe := userName }
  | .modListAppend chan nick =>
    server.modify (fun c => { c with modList := c.modList ++ [nick] }) chan
  | .addJoinedUser chan nick =>
    server.modify (Channel.modifyTwitch (fun t => { t with joinedUsers := t.joinedUsers ++ [nick] })) chan
  | .addPartedUser chan nick =>
    server.modify (Channel.modifyTwitch (fun t => { t with partedUsers := t.partedUsers ++ [nick] })) chan
  | .getChannelOrEmpty _ => server
  | .getChannelOrEmptyUtf16 _ => server
  | .triggerHighlights _ => server
  | .addHighlight _ => server
  | .roomModesChanged _ => server
  | .repaintVisibleChatWidgets _ => server
  | .forceLayoutChannelViews => server
  | .log _ => server

/-- The server state after a sequence of calls. -/
def TwitchIrcServer.run (env : Collaborators) (server : TwitchIrcServer) (calls : List Call) :
    TwitchIrcServer :=
  calls.foldl (TwitchIrcServer.apply env) server

/-! ## The handlers of `IrcMessageHandler` -/

/-- `IrcMessageHandler::parsePrivMessage`: the built messages, and the calls made. -/
def parsePrivMessage (env : Collaborators) (channel : ChannelPtr)
    (message : IrcPrivateMessage) : List MessagePtr × List Call :=
  let args := MessageParseArgs.default
  let builder := TwitchMessageBuilder.new channel message.toIrcMessage args message.content
    message.isAction
  if !builder.isIgnored env then
    ([builder.build env], [.triggerHighlights builder.input])
  else
    ([], [])

/-- `IrcMessageHandler::addMessage`. -/
def addMessage (env : Collaborators) (server : TwitchIrcServer) (_message : IrcMessage)
    (target content : QString) (isSub isAction : Bool) : List Call :=
  match trimChannelName target with
  | Option.none => []
  | some channelName =>
    let chan := server.getChannelOrEmpty channelName
    .getChannelOrEmpty channelName ::
    if (server.deref chan).isEmpty then []
    else
      let args : MessageParseArgs :=
        { trimSubscriberUsername := isSub,
          isStaffOrBroadcaster := (server.deref chan).isBroadcaster,
          isReceivedWhisper := false }
      let builder := TwitchMessageBuilder.new chan _message args content isAction
      if isSub || !builder.isIgnored env then
        let builder : TwitchMessageBuilder :=
          if isSub then
            { builder with flags := (builder.flags.set .Subscription).unset .Highlighted }
          else builder
        let msg := builder.build env
        let highlighted := msg.flags.has .Highlighted
        [.triggerHighlights builder.input]
          ++ (if !isSub && highlighted then
                [.addMessage .mentions msg Option.none, .addHighlight msg]
              else [])
          ++ [.addMessage chan msg Option.none]
          ++ (if (server.deref chan).recentChatters.isSome then
                [.addRecentChatter chan msg.displayName]
              else [])
      else []

/-- `IrcMessageHandler::handlePrivMessage`. -/
def handlePrivMessage (env : Collaborators) (server : TwitchIrcServer)
    (message : IrcPrivateMessage) : List Call :=
  addMessage env server message.toIrcMessage message.target message.content false
    message.isAction

/-- The "Room modes" block of `handleRoomStateMessage`: the copy of the room
modes after the six tag lookups. -/
def updateRoomModes (env : Collaborators) (tags : IrcTags) (roomModes : RoomModes) : RoomModes :=
  let roomModes : RoomModes :=
    match IrcTags.find tags "emote-only" with
    | some v => { roomModes with emoteOnly := v = "1" }
    | Option.none => roomModes
  let roomModes : RoomModes :=
    match IrcTags.find tags "subs-only" with
    | some v => { roomModes with submode := v = "1" }
    | Option.none => roomModes
  let roomModes : RoomModes :=
    match IrcTags.find tags "slow" with
    | some v => { roomModes with slowMode := env.toInt v }
    | Option.none => roomModes
  let roomModes : RoomModes :=
    match IrcTags.find tags "r9k" with
    | some v => { roomModes with r9k := v = "1" }
    | Option.none => roomModes
  let roomModes : RoomModes :=
    match IrcTags.find tags "broadcaster-lang" with
    | some v => { roomModes with broadcasterLang := v }
    | Option.none => roomModes
  match IrcTags.find tags "followers-only" with
  | some v => { roomModes with followerOnly := env.toInt v }
  | Option.none => roomModes

/-- `IrcMessageHandler::handleRoomStateMessage`. -/
def handleRoomStateMessage (env : Collaborators) (server : TwitchIrcServer)
    (message : IrcMessage) : List Call :=
  let tags := message.tags
  match trimChannelName (message.parameter 0) with
  | Option.none => []
  | some chanName =>
    let chan := server.getChannelOrEmpty chanName
    .getChannelOrEmpty chanName ::
    match (server.deref chan).twitch with
    | Option.none => []
    | some twitchChannel =>
      (match IrcTags.find tags "room-id" with
        | some roomId => [.setRoomId chan roomId]
        | Option.none => [])
      ++ [.setRoomModes chan (updateRoomModes env tags twitchChannel.roomModes),
          .roomModesChanged chan]

/-- `IrcMessageHandler::handleClearChatMessage`. -/
def handleClearChatMessage (env : Collaborators) (server : TwitchIrcServer)
    (message : IrcMessage) : List Call :=
  if message.parameters.length < 1 then []
  else
    match trimChannelName (message.parameter 0) with
    | Option.none => []
    | some chanName =>
      let chan := server.getChannelOrEmpty chanName
      .getChannelOrEmpty chanName ::
      if (server.deref chan).isEmpty then
        [.log ("[IrcMessageHandler:handleClearChatMessage] Twitch channel " ++ chanName
          ++ " not found")]
      else if message.parameters.length = 1 then
        [.disableAllMessages chan,
         .addMessage chan (makeSystemMessage env "Chat has been cleared by a moderator.")
           Option.none]
      else
        let username := message.parameter 1
        let v := message.tag "ban-duration"
        let durationInSeconds : QString := if v.isValid then v.toString else ""
        let v := message.tag "ban-reason"
        let reason : QString := if v.isValid then v.toString else ""
        let timeoutMsg :=
          MessageBuilder.timeoutMessage env username durationInSeconds reason false
        [.addOrReplaceTimeout chan timeoutMsg, .repaintVisibleChatWidgets chan]
          ++ (if env.hideModerated then [.forceLayoutChannelViews] else [])

/-- `IrcMessageHandler::handleClearMessageMessage`. -/
def handleClearMessageMessage (server : TwitchIrcServer) (message : IrcMessage) : List Call :=
  if message.parameters.length < 1 then []
  else
    match trimChannelName (message.parameter 0) with
    | Option.none => []
    | some chanName =>
      let chan := server.getChannelOrEmpty chanName
      .getChannelOrEmpty chanName ::
      if (server.deref chan).isEmpty then
        [.log ("[IrcMessageHandler:handleClearMessageMessage] Twitch channel " ++ chanName
          ++ " not found")]
      else
        let tags := message.tags
        let targetID : QString := (IrcTags.value tags "target-msg-id").toString
        [.deleteMessage chan targetID]

/-- `IrcMessageHandler::handleUserStateMessage`. -/
def handleUserStateMessage (server : TwitchIrcServer) (message : IrcMessage) : List Call :=
  match trimChannelName (message.parameter 0) with
  | Option.none => []
  | some channelName =>
    let c := server.getChannelOrEmpty channelName
    .getChannelOrEmpty channelName ::
    if (server.deref c).isEmpty then []
    else
      let _badges := message.tag "badges"
      let _mod := message.tag "mod"
      (if _badges.isValid && (server.deref c).twitch.isSome then
          let parsedBadges := parseBadges _badges.toString
          [.setVIP c (QMap.contains parsedBadges "vip"),
           .setStaff c (QMap.contains parsedBadges "staff")]
        else [])
      ++ (if _mod.isValid && (server.deref c).twitch.isSome then
            [.setMod c (_mod = some "1")]
          else [])

/-- `IrcMessageHandler::handleWhisperMessage`. -/
def handleWhisperMessage (env : Collaborators) (server : TwitchIrcServer)
    (message : IrcMessage) : List Call :=
  let args : MessageParseArgs := { MessageParseArgs.default with isReceivedWhisper := true }
  let c := ChannelPtr.whispers
  let builder := TwitchMessageBuilder.new c message args (message.parameter 1) false
  .log "Received whisper!" ::
  if !builder.isIgnored env then
    let builder : TwitchMessageBuilder := { builder with flags := builder.flags.set .Whisper }
    let _message := builder.build env
    let overrideFlags :=
      ((_message.flags).set .DoNotTriggerNotification).set .DoNotLog
    [.triggerHighlights builder.input,
     .setLastUserThatWhisperedMe (env.userName builder.input)]
      ++ (if _message.flags.has .Highlighted then
            [.addMessage .mentions _message Option.none]
          else [])
      ++ [.addMessage c _message Option.none]
      ++ (if env.inlineWhispers then
            server.forEachChannel.map
              (fun channel => Call.addMessage channel _message (some overrideFlags))
          else [])
  else []

/-- `IrcMessageHandler::parseUserNoticeMessage`. `none` is the out-of-range read
`parameters[0]` on an empty parameter list. -/
def parseUserNoticeMessage (env : Collaborators) (channel : ChannelPtr)
    (message : IrcMessage) : Option (List MessagePtr) :=
  let tags := message.tags
  let parameters := message.parameters
  match parameters with
  | [] => Option.none
  | _target :: _ =>
    let msgType : QString := (IrcTags.valueOr tags "msg-id" "").toString
    let content : QString := if parameters.length ≥ 2 then parameters.getD 1 "" else ""
    let subMessages : List MessagePtr :=
      if msgType = "sub" || msgType = "resub" || msgType = "subgift" then
        if !(content = "") then
          let args : MessageParseArgs :=
            { MessageParseArgs.default with trimSubscriberUsername := true }
          let builder := TwitchMessageBuilder.new channel message args content false
          let builder : TwitchMessageBuilder :=
            { builder with flags := (builder.flags.set .Subscription).unset .Highlighted }
          [builder.build env]
        else []
      else []
    let systemMessages : List MessagePtr :=
      match IrcTags.find tags "system-msg" with
      | some v =>
        let b := MessageBuilder.systemMessage env (env.parseTagString v)
        let newMessage : Message := { b with flags := b.flags.set .Subscription }
        [newMessage]
      | Option.none => []
    some (subMessages ++ systemMessages)

/-- `IrcMessageHandler::handleUserNoticeMessage`. `none` is the out-of-range read
`parameters[0]` on an empty parameter list. -/
def handleUserNoticeMessage (env : Collaborators) (server : TwitchIrcServer)
    (message : IrcMessage) : Option (List Call) :=
  let tags := message.tags
  let parameters := message.parameters
  match parameters with
  | [] => Option.none
  | target :: _ =>
    let msgType : QString := (IrcTags.valueOr tags "msg-id" "").toString
    let content : QString := if parameters.length ≥ 2 then parameters.getD 1 "" else ""
    let subCalls : List Call :=
      if msgType = "sub" || msgType = "resub" || msgType = "subgift" then
        if !(content = "") then addMessage env server message target content true false
        else []
      else []
    let systemCalls : List Call :=
      match IrcTags.find tags "system-msg" with
      | some v =>
        let b := MessageBuilder.systemMessage env (env.parseTagString v)
        let newMessage : Message := { b with flags := b.flags.set .Subscription }
        if message.parameters.length < 1 then []
        else
          match trimChannelName (message.parameter 0) with
          | Option.none => []
          | some channelName =>
            let chan := server.getChannelOrEmpty channelName
            .getChannelOrEmpty channelName ::
            if !(server.deref chan).isEmpty then [.addMessage chan newMessage Option.none]
            else []
      | Option.none => []
    some (subCalls ++ systemCalls)

/-- `IrcMessageHandler::handleModeMessage`. When `parameter(0).remove(0, 1)` is
not a well-formed string the lookup returns the empty channel and the handler
returns. -/
def handleModeMessage (server : TwitchIrcServer) (message : IrcMessage) : List Call :=
  match QString.removeFirst (message.parameter 0) with
  | Option.none =>
    [.getChannelOrEmptyUtf16 (QString.removeFirstUnits (message.parameter 0))]
  | some name =>
    let channel := server.getChannelOrEmpty name
    .getChannelOrEmpty name ::
    if (server.deref channel).isEmpty then []
    else if message.parameter 1 = "+o" then [.modListAppend channel (message.parameter 2)]
    else if message.parameter 1 = "-o" then [.modListAppend channel (message.parameter 2)]
    else []

/-- `IrcMessageHandler::parseNoticeMessage`. -/
def parseNoticeMessage (env : Collaborators) (message : IrcNoticeMessage) : List MessagePtr :=
  if QString.startsWithCaseInsensitive message.content "Login auth" then
    [MessageBuilder.systemMessage env "Login expired! Try logging in again."]
  else
    [makeSystemMessage env message.content]

/-- The loop of `handleNoticeMessage` over the built messages; a `return` in the
body ends the loop. -/
def handleNoticeLoop (env : Collaborators) (server : TwitchIrcServer)
    (message : IrcNoticeMessage) : List MessagePtr → List Call
  | [] => []
  | msg :: rest =>
    let sendToAll : List Call :=
      server.forEachChannelAndSpecialChannels.map
        (fun c => Call.addMessage c msg Option.none)
    match trimChannelName message.target with
    | Option.none => sendToAll
    | some channelName =>
      if channelName = "jtv" then sendToAll
      else
        let channel := server.getChannelOrEmpty channelName
        .getChannelOrEmpty channelName ::
        if (server.deref channel).isEmpty then
          [.log ("[IrcManager:handleNoticeMessage] Channel " ++ channelName
            ++ " not found in channel manager ")]
        else
          let tags : QString := (IrcTags.valueOr message.tags "msg-id" "").toString
          (if tags = "bad_delete_message_error" || tags = "usage_delete" then
              Call.addMessage channel
                (makeSystemMessage env
                  "Usage: \"/delete <msg-id>\" - can't take more than one argument")
                Option.none
            else Call.addMessage channel msg Option.none)
          :: handleNoticeLoop env server message rest

/-- `IrcMessageHandler::handleNoticeMessage`. -/
def handleNoticeMessage (env : Collaborators) (server : TwitchIrcServer)
    (message : IrcNoticeMessage) : List Call :=
  handleNoticeLoop env server message (parseNoticeMessage env message)

/-- `IrcMessageHandler::handleJoinMessage`. When `parameter(0).remove(0, 1)` is
not a well-formed string the lookup returns the empty channel, which is no
`TwitchChannel`. -/
def handleJoinMessage (env : Collaborators) (server : TwitchIrcServer)
    (message : IrcMessage) : List Call :=
  match QString.removeFirst (message.parameter 0) with
  | Option.none =>
    [.getChannelOrEmptyUtf16 (QString.removeFirstUnits (message.parameter 0))]
  | some name =>
    let channel := server.getChannelOrEmpty name
    .getChannelOrEmpty name ::
    if (server.deref channel).twitch.isSome then
      if message.nick ≠ env.currentUserName && env.showJoins then
        [.addJoinedUser channel message.nick]
      else []
    else []

/-- `IrcMessageHandler::handlePartMessage`. When `parameter(0).remove(0, 1)` is
not a well-formed string the lookup returns the empty channel, which is no
`TwitchChannel`. -/
def handlePartMessage (env : Collaborators) (server : TwitchIrcServer)
    (message : IrcMessage) : List Call :=
  match QString.removeFirst (message.parameter 0) with
  | Option.none =>
    [.getChannelOrEmptyUtf16 (QString.removeFirstUnits (message.parameter 0))]
  | some name =>
    let channel := server.getChannelOrEmpty name
    .getChannelOrEmpty name ::
    if (server.deref channel).twitch.isSome then
      if message.nick ≠ env.currentUserName && env.showJoins then
        [.addPartedUser channel message.nick]
      else []
    else []

/-! ## Concrete inputs used by the sanity checks -/

/-- The value of a string of decimal digits, `none` when a character is no digit. -/
def decimalValue : List Char → Nat → Option Nat
  | [], acc => some acc
  | c :: cs, acc =>
    if '0' ≤ c ∧ c ≤ '9' then decimalValue cs (10 * acc + (c.toNat - '0'.toNat))
    else Option.none

/-- The integer parse used by the concrete checks: an optional sign and decimal
digits, 0 for anything else. -/
def exampleToInt (s : QString) : Int :=
  match s.data with
  | [] => 0
  | '-' :: ds => if ds = [] then 0 else -(((decimalValue ds 0).getD 0 : Nat) : Int)
  | ds => (((decimalValue ds 0).getD 0 : Nat) : Int)

/-- Collaborators for the concrete checks: "spam" is ignored, "ping" is highlighted. -/
def exampleEnv : Collaborators :=
  { isIgnored := fun i => i.content = "spam",
    highlightMatches := fun i => i.content = "ping",
    displayName := fun i => i.ircMessage.nick,
    userName := fun i => i.ircMessage.nick,
    messageId := fun i => (IrcTags.value i.ircMessage.tags "id").toString,
    systemMessageFlags := MessageFlags.none,
    timeoutMessageFlags := MessageFlags.none,
    parseTagString := fun s => s,
    toInt := exampleToInt,
    mergeTimeout := fun l m => l ++ [m],
    hideModerated := true,
    inlineWhispers := true,
    showJoins := true,
    currentUserName := "me" }

/-- A Twitch channel with the given name and stored messages; its store holds up
to 1000 messages and slow mode is 30. -/
def exampleChannel (name : QString) (messages : List Message) : Channel :=
  { name := name, broadcaster := false, messages := messages, messageLimit := 1000,
    modList := [],
    twitch := some ⟨"", ⟨false, true, false, -1, 30, "en"⟩, false, false, false, [], []⟩,
    recentChatters := some [] }

/-- A stored system message (its id is empty). -/
def exampleNotice : Message :=
  ⟨.systemMessage "hello", MessageFlags.none, "", ""⟩

/-- A stored chat message with id "abc123". -/
def exampleChat : Message :=
  ⟨.twitchMessage ⟨.channel 0, ⟨"PRIVMSG", ["#forsen", "hi"], [("id", "abc123")], "bob"⟩,
    MessageParseArgs.default, "hi", false⟩, MessageFlags.none, "bob", "abc123"⟩

/-- A server with the open channels "forsen" (two stored messages) and "pajlada". -/
def exampleServer : TwitchIrcServer :=
  { channels := [exampleChannel "forsen" [exampleNotice, exampleChat],
                 exampleChannel "pajlada" []],
    whispersChannel := { Channel.getEmpty with name := "/whispers", messageLimit := 1000 },
    mentionsChannel := { Channel.getEmpty with name := "/mentions", messageLimit := 1000 },
    lastUserThatWhisperedMe := "" }

/-- NOTICE whose content is itself the text of the "Login expired" message. -/
def exampleLoginExpiredNotice : IrcNoticeMessage :=
  ⟨⟨"NOTICE", ["*", "Login expired! Try logging in again."], [], ""⟩,
    "*", "Login expired! Try logging in again."⟩

/-- MODE whose parameter 0 starts with U+1F600, a character outside the Basic
Multilingual Plane, followed by "forsen". -/
def exampleModeAstral : IrcMessage :=
  ⟨"MODE", [String.mk (Char.ofNat 128512 :: "forsen".data), "+o", "bob"], [], ""⟩

/-- ROOMSTATE for "#forsen" carrying only `emote-only=1`. -/
def exampleRoomState : IrcMessage :=
  ⟨"ROOMSTATE", ["#forsen"], [("emote-only", "1")], ""⟩

/-- PRIVMSG to "#forsen" whose content the ignore rules of `exampleEnv` match. -/
def exampleIgnoredPrivMsg : IrcPrivateMessage :=
  ⟨⟨"PRIVMSG", ["#forsen", "spam"], [], "bob"⟩, "#forsen", "spam", false⟩

/-- USERNOTICE resub with content "ping" and a `system-msg` tag. -/
def exampleResub : IrcMessage :=
  ⟨"USERNOTICE", ["#forsen", "ping"],
    [("msg-id", "resub"), ("system-msg", "bob resubscribed")], "bob"⟩

/-- CLEARCHAT for "#forsen" without a target user. -/
def exampleClearChat : IrcMessage :=
  ⟨"CLEARCHAT", ["#forsen"], [], ""⟩

/-- CLEARCHAT timing out "bob" for 600 seconds with reason "spam". -/
def exampleTimeout : IrcMessage :=
  ⟨"CLEARCHAT", ["#forsen", "bob"], [("ban-duration", "600"), ("ban-reason", "spam")], ""⟩

/-- CLEARCHAT banning "bob" without `ban-duration` and `ban-reason`. -/
def exampleBan : IrcMessage :=
  ⟨"CLEARCHAT", ["#forsen", "bob"], [], ""⟩

/-- CLEARMSG for "#forsen" with `target-msg-id=abc123`. -/
def exampleClearMsg : IrcMessage :=
  ⟨"CLEARMSG", ["#forsen"], [("target-msg-id", "abc123")], ""⟩

/-- CLEARMSG for "#forsen" without a `target-msg-id` tag. -/
def exampleClearMsgNoId : IrcMessage :=
  ⟨"CLEARMSG", ["#forsen"], [("login", "bob")], ""⟩

/-- NOTICE to "#jtv" with content "maintenance". -/
def exampleJtvNotice : IrcNoticeMessage :=
  ⟨⟨"NOTICE", ["#jtv", "maintenance"], [], ""⟩, "#jtv", "maintenance"⟩

/-- NOTICE whose target "#" cannot be resolved to a channel name. -/
def exampleUnresolvedNotice : IrcNoticeMessage :=
  ⟨⟨"NOTICE", ["#", "maintenance"], [], ""⟩, "#", "maintenance"⟩

/-- An event whose channel token "#" cannot be resolved. -/
def exampleUnresolvedEvent : IrcMessage :=
  ⟨"USERNOTICE", ["#", "hello"], [("msg-id", "resub"), ("system-msg", "bob resubscribed"),
    ("badges", "vip/1"), ("target-msg-id", "abc123"), ("emote-only", "1")], "bob"⟩

/-- MODE granting operator status to "bob" in "#forsen". -/
def exampleModeGrant : IrcMessage :=
  ⟨"MODE", ["#forsen", "+o", "bob"], [], ""⟩

/-- MODE revoking operator status from "bob" in "#forsen". -/
def exampleModeRevoke : IrcMessage :=
  ⟨"MODE", ["#forsen", "-o", "bob"], [], ""⟩

/-- MODE whose parameter 0 has no leading `#`. -/
def exampleModeNoHash : IrcMessage :=
  ⟨"MODE", ["forsen", "+o", "bob"], [], ""⟩

/-- USERSTATE for "#forsen" with a VIP badge and `mod=1`. -/
def exampleUserState : IrcMessage :=
  ⟨"USERSTATE", ["#forsen"], [("badges", "vip/1,subscriber/12"), ("mod", "1")], ""⟩

/-- USERSTATE for "#forsen" with neither a `badges` nor a `mod` tag. -/
def exampleUserStateNoTags : IrcMessage :=
  ⟨"USERSTATE", ["#forsen"], [("color", "#FF0000")], ""⟩

/-- WHISPER from "bob" with content "ping", which the highlight rules match. -/
def exampleWhisper : IrcMessage :=
  ⟨"WHISPER", ["me", "ping"], [], "bob"⟩

/-- NOTICE whose content starts with "login AUTH", in another letter case. -/
def exampleLoginNotice : IrcNoticeMessage :=
  ⟨⟨"NOTICE", ["*", "login AUTHentication failed"], [], ""⟩, "*", "login AUTHentication failed"⟩

/-- NOTICE whose content does not start with "Login auth". -/
def examplePlainNotice : IrcNoticeMessage :=
  ⟨⟨"NOTICE", ["#forsen", "This room is now in slow mode."], [], ""⟩,
    "#forsen", "This room is now in slow mode."⟩

/-- USERNOTICE resub whose content "spam" the ignore rules of `exampleEnv` match. -/
def exampleIgnoredResub : IrcMessage :=
  ⟨"USERNOTICE", ["#forsen", "spam"], [("msg-id", "resub")], "bob"⟩

/-- ROOMSTATE for "#forsen" carrying all six room-mode tags. -/
def exampleFullRoomState : IrcMessage :=
  ⟨"ROOMSTATE", ["#forsen"],
    [("emote-only", "1"), ("subs-only", "0"), ("slow", "12345"), ("r9k", "0"),
     ("broadcaster-lang", "de"), ("followers-only", "12")], ""⟩

/-- JOIN of "bob" whose parameter 0 has no leading `#`. -/
def exampleJoinNoHash : IrcMessage :=
  ⟨"JOIN", ["forsen"], [], "bob"⟩

/-- USERNOTICE with an empty parameter list. -/
def exampleEmptyUserNotice : IrcMessage :=
  ⟨"USERNOTICE", [], [("msg-id", "resub"), ("system-msg", "bob resubscribed")], "bob"⟩

/-! ## parseBadges: proofs -/

theorem splitChars_length (sep : Char) (cs : List Char) :
    (splitChars sep cs).length = cs.count sep + 1 := by
  induction cs with
  | nil => simp [splitChars]
  | cons c cs ih =>
    by_cases h : c = sep
    · subst h
      simp [splitChars, ih]
    · have hne : (c == sep) = false := by simpa using h
      simp only [splitChars, if_neg h, List.count_cons, hne]
      cases hs : splitChars sep cs with
      | nil => rw [hs] at ih; simp at ih
      | cons p ps => rw [hs] at ih; simpa using ih

theorem mem_insert (m : QMap) (k v : QString) (p : QString × QString)
    (h : p ∈ QMap.insert m k v) : p = (k, v) ∨ p ∈ m := by
  unfold QMap.insert at h
  rcases List.mem_cons.mp h with h | h
  · exact Or.inl h
  · exact Or.inr (List.mem_filter.mp h).1

theorem mem_parseBadgesStep (m : QMap) (seg : QString) (p : QString × QString)
    (h : p ∈ parseBadgesStep m seg) : QString.split seg '/' = [p.1, p.2] ∨ p ∈ m := by
  unfold parseBadgesStep at h
  split at h
  · next name version heq =>
    rcases mem_insert _ _ _ _ h with h | h
    · left; rw [heq, h]
    · exact Or.inr h
  · exact Or.inr h

theorem mem_parseBadgesLoop (segs : List QString) (m : QMap) (p : QString × QString)
    (h : p ∈ parseBadgesLoop m segs) :
    (∃ seg ∈ segs, QString.split seg '/' = [p.1, p.2]) ∨ p ∈ m := by
  induction segs generalizing m with
  | nil => exact Or.inr h
  | cons seg segs ih =>
    have h' : p ∈ parseBadgesLoop (parseBadgesStep m seg) segs := h
    rcases ih _ h' with ⟨s, hs, hsplit⟩ | hm
    · exact Or.inl ⟨s, List.mem_cons_of_mem _ hs, hsplit⟩
    · rcases mem_parseBadgesStep _ _ _ hm with hsplit | hm
      · exact Or.inl ⟨seg, List.mem_cons_self _ _, hsplit⟩
      · exact Or.inr hm

theorem parseBadgesStep_skip (m : QMap) (seg : QString)
    (h : (QString.split seg '/').length ≠ 2) : parseBadgesStep m seg = m := by
  unfold parseBadgesStep
  split
  · next name version heq => rw [heq] at h; simp at h
  · rfl

theorem parseBadgesLoop_filter (segs : List QString) (m : QMap) :
    parseBadgesLoop m segs =
      parseBadgesLoop m (segs.filter (fun seg => decide ((QString.split seg '/').length = 2))) := by
  induction segs generalizing m with
  | nil => rfl
  | cons seg segs ih =>
    by_cases h : (QString.split seg '/').length = 2
    · rw [List.filter_cons_of_pos (by simpa using h)]
      exact ih _
    · rw [List.filter_cons_of_neg (by simpa using h)]
      show parseBadgesLoop (parseBadgesStep m seg) segs = _
      rw [parseBadgesStep_skip m seg h]
      exact ih _

/-- C1: `parseBadges` is total; every entry `(k, v)` of its result comes from a
comma-separated segment that splits on `/` into exactly `[k, v]`; a segment has
one more `/`-part than it has `/` characters; and the result is the one
obtained from the segments with exactly two parts alone, so every other segment
contributes nothing. -/
theorem parseBadges_only_wellformed (s : QString) :
    (∀ k v, (k, v) ∈ parseBadges s →
      ∃ seg ∈ QString.split s ',', QString.split seg '/' = [k, v]) ∧
    (∀ seg : QString, (QString.split seg '/').length = seg.data.count '/' + 1) ∧
    parseBadges s = parseBadgesLoop []
      ((QString.split s ',').filter (fun seg => decide ((QString.split seg '/').length = 2))) := by
  refine ⟨?_, ?_, ?_⟩
  · intro k v h
    rcases mem_parseBadgesLoop _ _ _ h with h | h
    · exact h
    · simp at h
  · intro seg
    simp [QString.split, splitChars_length]
  · exact parseBadgesLoop_filter _ _

/-! ## Lookup and update lemmas -/

theorem trimChannelName_ne_empty (s n : QString) (h : trimChannelName s = some n) : n ≠ "" := by
  unfold trimChannelName at h
  simp only at h
  split at h
  · simp at h
  · next hne => simp only [Option.some.injEq] at h; rw [← h]; exact hne

theorem lookupIndex_some (name : QString) (l : List Channel) (i : Nat) (d : Channel)
    (h : lookupIndex name l = some i) : i < l.length ∧ (l.getD i d).name = name := by
  induction l generalizing i with
  | nil => simp [lookupIndex] at h
  | cons c cs ih =>
    unfold lookupIndex at h
    split at h
    · next hc =>
      simp only [Option.some.injEq] at h
      subst h
      simpa using hc
    · cases hl : lookupIndex name cs with
      | none => rw [hl] at h; simp at h
      | some j =>
        rw [hl] at h
        simp only [Option.map_some', Option.some.injEq] at h
        subst h
        have := ih j hl
        simpa using this

theorem getChannelOrEmpty_channel (server : TwitchIrcServer) (name : QString) (i : Nat)
    (h : server.getChannelOrEmpty name = .channel i) :
    i < server.channels.length ∧ (server.deref (.channel i)).name = name := by
  unfold TwitchIrcServer.getChannelOrEmpty at h
  split at h
  · next j hj =>
    simp only [ChannelPtr.channel.injEq] at h
    subst h
    exact lookupIndex_some name _ _ _ hj
  · simp at h

theorem modifyAt_getD {α : Type} (f : α → α) (i : Nat) (l : List α) (d : α)
    (h : i < l.length) : (modifyAt f i l).getD i d = f (l.getD i d) := by
  induction l generalizing i with
  | nil => simp at h
  | cons a as ih =>
    cases i with
    | zero => simp [modifyAt]
    | succ i =>
      simp only [modifyAt, List.getD_cons_succ]
      exact ih i (by simpa using h)

theorem modifyAt_length {α : Type} (f : α → α) (i : Nat) (l : List α) :
    (modifyAt f i l).length = l.length := by
  induction l generalizing i with
  | nil => simp [modifyAt]
  | cons a as ih =>
    cases i with
    | zero => simp [modifyAt]
    | succ i => simp [modifyAt, ih]

theorem deref_modify_channel (server : TwitchIrcServer) (f : Channel → Channel) (i : Nat)
    (h : i < server.channels.length) :
    (server.modify f (.channel i)).deref (.channel i) = f (server.deref (.channel i)) := by
  simp only [TwitchIrcServer.modify, TwitchIrcServer.deref]
  exact modifyAt_getD f i _ _ h

theorem modify_channels_length (server : TwitchIrcServer) (f : Channel → Channel) (i : Nat) :
    (server.modify f (.channel i)).channels.length = server.channels.length := by
  simp [TwitchIrcServer.modify, modifyAt_length]

theorem live_channel (server : TwitchIrcServer) (s name : QString) (i : Nat)
    (hname : trimChannelName s = some name)
    (hchan : server.getChannelOrEmpty name = .channel i) :
    (server.deref (.channel i)).isEmpty = false := by
  have h1 := (getChannelOrEmpty_channel server name i hchan).2
  have h2 := trimChannelName_ne_empty s name hname
  simp [Channel.isEmpty, h1, h2]


theorem updateRoomModes_frame (env : Collaborators) (tags : IrcTags) (rm : RoomModes) :
    (IrcTags.find tags "emote-only" = Option.none →
      (updateRoomModes env tags rm).emoteOnly = rm.emoteOnly) ∧
    (IrcTags.find tags "subs-only" = Option.none →
      (updateRoomModes env tags rm).submode = rm.submode) ∧
    (IrcTags.find tags "slow" = Option.none →
      (updateRoomModes env tags rm).slowMode = rm.slowMode) ∧
    (IrcTags.find tags "r9k" = Option.none →
      (updateRoomModes env tags rm).r9k = rm.r9k) ∧
    (IrcTags.find tags "broadcaster-lang" = Option.none →
      (updateRoomModes env tags rm).broadcasterLang = rm.broadcasterLang) ∧
    (IrcTags.find tags "followers-only" = Option.none →
      (updateRoomModes env tags rm).followerOnly = rm.followerOnly) := by
  refine ⟨?_, ?_, ?_, ?_, ?_, ?_⟩ <;> intro h <;> unfold updateRoomModes <;>
    simp only [h] <;> (repeat' split) <;> rfl

theorem run_append (env : Collaborators) (server : TwitchIrcServer) (a b : List Call) :
    server.run env (a ++ b) = (server.run env a).run env b := by
  simp [TwitchIrcServer.run, List.foldl_append]

theorem roomState_twitch (env : Collaborators) (server : TwitchIrcServer) (message : IrcMessage)
    (chanName : QString) (i : Nat) (tc : TwitchChannel)
    (hname : trimChannelName (message.parameter 0) = some chanName)
    (hchan : server.getChannelOrEmpty chanName = .channel i)
    (htw : (server.deref (.channel i)).twitch = some tc) :
    ((server.run env (handleRoomStateMessage env server message)).deref (.channel i)).twitch =
      some { tc with
        roomId := (IrcTags.find message.tags "room-id").getD tc.roomId,
        roomModes := updateRoomModes env message.tags tc.roomModes } := by
  have hlen := (getChannelOrEmpty_channel server chanName i hchan).1
  unfold handleRoomStateMessage
  simp only [hname, hchan, htw]
  cases hr : IrcTags.find message.tags "room-id" with
  | none =>
    simp only [List.nil_append, TwitchIrcServer.run, List.foldl_cons, List.foldl_nil,
      TwitchIrcServer.apply]
    rw [deref_modify_channel _ _ _ hlen]
    simp [Channel.modifyTwitch, htw]
  | some roomId =>
    simp only [List.singleton_append, TwitchIrcServer.run, List.foldl_cons, List.foldl_nil,
      TwitchIrcServer.apply]
    rw [deref_modify_channel _ _ _ (by rw [modify_channels_length]; exact hlen),
      deref_modify_channel _ _ _ hlen]
    simp [Channel.modifyTwitch, htw]

/-- C2: after a ROOMSTATE event on a live Twitch channel, every RoomModes field
whose tag is absent from the tag dictionary has the value it had before. -/
theorem handleRoomStateMessage_absent_tags_unchanged (env : Collaborators)
    (server : TwitchIrcServer) (message : IrcMessage) (chanName : QString) (i : Nat)
    (tc : TwitchChannel)
    (hname : trimChannelName (message.parameter 0) = some chanName)
    (hchan : server.getChannelOrEmpty chanName = .channel i)
    (htw : (server.deref (.channel i)).twitch = some tc) :
    ∃ tc', ((server.run env (handleRoomStateMessage env server message)).deref
        (.channel i)).twitch = some tc' ∧
      (IrcTags.find message.tags "emote-only" = Option.none →
        tc'.roomModes.emoteOnly = tc.roomModes.emoteOnly) ∧
      (IrcTags.find message.tags "subs-only" = Option.none →
        tc'.roomModes.submode = tc.roomModes.submode) ∧
      (IrcTags.find message.tags "slow" = Option.none →
        tc'.roomModes.slowMode = tc.roomModes.slowMode) ∧
      (IrcTags.find message.tags "r9k" = Option.none →
        tc'.roomModes.r9k = tc.roomModes.r9k) ∧
      (IrcTags.find message.tags "broadcaster-lang" = Option.none →
        tc'.roomModes.broadcasterLang = tc.roomModes.broadcasterLang) ∧
      (IrcTags.find message.tags "followers-only" = Option.none →
        tc'.roomModes.followerOnly = tc.roomModes.followerOnly) :=
  ⟨_, roomState_twitch env server message chanName i tc hname hchan htw,
    updateRoomModes_frame env message.tags tc.roomModes⟩


/-- C3: when the builder reports a PRIVMSG as ignored, `parsePrivMessage` returns
no message and makes no call (so no `triggerHighlights`), and the only call
`handlePrivMessage` can make is the channel lookup: no message is added to the
origin or the mentions channel, no recent chatter is recorded, the highlight
controller is not called, and the server state is unchanged. -/
theorem ignored_privmsg_produces_nothing (env : Collaborators) (server : TwitchIrcServer)
    (channel : ChannelPtr) (message : IrcPrivateMessage)
    (hparse : (TwitchMessageBuilder.new channel message.toIrcMessage MessageParseArgs.default
      message.content message.isAction).isIgnored env = true)
    (hhandle : ∀ channelName, trimChannelName message.target = some channelName →
      (TwitchMessageBuilder.new (server.getChannelOrEmpty channelName) message.toIrcMessage
        ⟨false, (server.deref (server.getChannelOrEmpty channelName)).isBroadcaster, false⟩
        message.content message.isAction).isIgnored env = true) :
    parsePrivMessage env channel message = ([], []) ∧
    (∀ c ∈ handlePrivMessage env server message, ∃ name, c = Call.getChannelOrEmpty name) ∧
    server.run env (handlePrivMessage env server message) = server := by
  have hcalls : handlePrivMessage env server message = [] ∨
      ∃ name, handlePrivMessage env server message = [Call.getChannelOrEmpty name] := by
    unfold handlePrivMessage addMessage
    cases ht : trimChannelName message.target with
    | none => exact Or.inl rfl
    | some channelName =>
      right
      refine ⟨channelName, ?_⟩
      by_cases he : (server.deref (server.getChannelOrEmpty channelName)).isEmpty = true
      · simp [he]
      · have hign := hhandle channelName ht
        simp only [he, Bool.false_or, Bool.false_eq_true, if_false, hign, Bool.not_true]
  refine ⟨?_, ?_, ?_⟩
  · simp [parsePrivMessage, hparse]
  · rcases hcalls with h | ⟨name, h⟩
    · rw [h]; simp
    · rw [h]; intro c hc; exact ⟨name, by simpa using hc⟩
  · rcases hcalls with h | ⟨name, h⟩
    · rw [h]; rfl
    · rw [h]; rfl

/-- C4: for a USERNOTICE with `msg-id=resub`, a non-empty content parameter and a
`system-msg` tag, `parseUserNoticeMessage` returns exactly two messages: first
the content message, with Subscription set and Highlighted not set, then the
system message built from the `system-msg` tag, with Subscription set. -/
theorem resub_with_content_gives_two_messages (env : Collaborators) (channel : ChannelPtr)
    (message : IrcMessage) (target content : QString) (rest : List QString) (v : QString)
    (hparams : message.parameters = target :: content :: rest)
    (hcontent : content ≠ "")
    (hid : IrcTags.find message.tags "msg-id" = some "resub")
    (hsys : IrcTags.find message.tags "system-msg" = some v) :
    ∃ contentMsg systemMsg,
      parseUserNoticeMessage env channel message = some [contentMsg, systemMsg] ∧
      contentMsg.origin = .twitchMessage ⟨channel, message, ⟨true, false, false⟩, content, false⟩ ∧
      contentMsg.flags.has .Subscription = true ∧
      contentMsg.flags.has .Highlighted = false ∧
      systemMsg.origin = .systemMessage (env.parseTagString v) ∧
      systemMsg.flags.has .Subscription = true := by
  have hid' : List.lookup "msg-id" message.tags = some "resub" := hid
  refine ⟨TwitchMessageBuilder.build env
      ⟨⟨channel, message, ⟨true, false, false⟩, content, false⟩,
        (MessageFlags.none.set .Subscription).unset .Highlighted⟩,
    { MessageBuilder.systemMessage env (env.parseTagString v) with
      flags := (MessageBuilder.systemMessage env (env.parseTagString v)).flags.set
        .Subscription }, ?_, ?_, ?_, ?_, ?_, ?_⟩
  · unfold parseUserNoticeMessage
    simp only [hparams, hsys, IrcTags.valueOr, hid', Option.getD_some, QVariant.toString]
    simp [hcontent, TwitchMessageBuilder.new, MessageParseArgs.default]
  · rfl
  · simp [TwitchMessageBuilder.build, MessageFlags.has,
      MessageFlags.set, MessageFlags.unset, MessageFlags.none]
  · simp [TwitchMessageBuilder.build, MessageFlags.has,
      MessageFlags.set, MessageFlags.unset, MessageFlags.none]
  · rfl
  · simp [MessageFlags.has, MessageFlags.set]


theorem pushBack_of_room (limit : Nat) (messages : List Message) (msg : MessagePtr)
    (h : messages.length < limit) : pushBack limit messages msg = messages ++ [msg] := by
  unfold pushBack
  have hz : (messages ++ [msg]).length - limit = 0 := by
    simp only [List.length_append, List.length_singleton]
    omega
  rw [hz, List.drop_zero]

/-- C6: a CLEARCHAT with more than one parameter on a live channel passes to
`addOrReplaceTimeout` exactly one timeout message, built from parameter 1 and
the values of `ban-duration` and `ban-reason`, an absent tag giving the empty
string. -/
theorem clearChat_timeout_arguments (env : Collaborators) (server : TwitchIrcServer)
    (message : IrcMessage) (p0 username chanName : QString) (rest : List QString) (i : Nat)
    (hparams : message.parameters = p0 :: username :: rest)
    (hname : trimChannelName p0 = some chanName)
    (hchan : server.getChannelOrEmpty chanName = .channel i) :
    handleClearChatMessage env server message =
      [.getChannelOrEmpty chanName,
       .addOrReplaceTimeout (.channel i)
         (MessageBuilder.timeoutMessage env username
           ((IrcTags.find message.tags "ban-duration").getD "")
           ((IrcTags.find message.tags "ban-reason").getD "") false),
       .repaintVisibleChatWidgets (.channel i)]
      ++ (if env.hideModerated then [.forceLayoutChannelViews] else []) ∧
    (MessageBuilder.timeoutMessage env username
        ((IrcTags.find message.tags "ban-duration").getD "")
        ((IrcTags.find message.tags "ban-reason").getD "") false).origin =
      .timeoutMessage username ((IrcTags.find message.tags "ban-duration").getD "")
        ((IrcTags.find message.tags "ban-reason").getD "") false := by
  have hlive := live_channel server p0 chanName i hname hchan
  refine ⟨?_, rfl⟩
  unfold handleClearChatMessage
  simp only [hparams, IrcMessage.parameter, IrcMessage.tag]
  simp only [List.length_cons, List.getD_cons_zero, List.getD_cons_succ, hname, hchan, hlive]
  cases hd : IrcTags.find message.tags "ban-duration" <;>
    cases hr : IrcTags.find message.tags "ban-reason" <;>
    simp [QVariant.isValid, QVariant.toString]

/-- C7: a CLEARMSG on a live channel carrying `target-msg-id = id` asks the store
to delete exactly `id`; afterwards the store is the prior store without the
messages of that id, the others unchanged and in order, and it is unchanged
when no stored message has that id. -/
theorem clearMsg_deletes_target_id (env : Collaborators) (server : TwitchIrcServer)
    (message : IrcMessage) (p0 chanName : QString) (rest : List QString) (i : Nat)
    (id : QString)
    (hparams : message.parameters = p0 :: rest)
    (hname : trimChannelName p0 = some chanName)
    (hchan : server.getChannelOrEmpty chanName = .channel i)
    (htag : IrcTags.find message.tags "target-msg-id" = some id) :
    handleClearMessageMessage server message =
      [.getChannelOrEmpty chanName, .deleteMessage (.channel i) id] ∧
    ((server.run env (handleClearMessageMessage server message)).deref (.channel i)).messages =
      (server.deref (.channel i)).messages.filter (fun m => m.id ≠ id) ∧
    (∀ m ∈ ((server.run env (handleClearMessageMessage server message)).deref
        (.channel i)).messages, m.id ≠ id) ∧
    ((∀ m ∈ (server.deref (.channel i)).messages, m.id ≠ id) →
      ((server.run env (handleClearMessageMessage server message)).deref
        (.channel i)).messages = (server.deref (.channel i)).messages) := by
  have hlen := (getChannelOrEmpty_channel server chanName i hchan).1
  have hlive := live_channel server p0 chanName i hname hchan
  have htag' : List.lookup "target-msg-id" message.tags = some id := htag
  have hcalls : handleClearMessageMessage server message =
      [.getChannelOrEmpty chanName, .deleteMessage (.channel i) id] := by
    unfold handleClearMessageMessage
    simp [hparams, IrcMessage.parameter, hname, hchan, hlive, IrcTags.value, htag',
      QVariant.toString]
  have hstore : ((server.run env (handleClearMessageMessage server message)).deref
      (.channel i)).messages =
      (server.deref (.channel i)).messages.filter (fun m => m.id ≠ id) := by
    rw [hcalls]
    simp only [TwitchIrcServer.run, List.foldl_cons, List.foldl_nil, TwitchIrcServer.apply]
    rw [deref_modify_channel _ _ _ hlen]
    rfl
  refine ⟨hcalls, hstore, ?_, ?_⟩
  · rw [hstore]
    intro m hm
    simpa using (List.mem_filter.mp hm).2
  · intro hnone
    rw [hstore]
    exact List.filter_eq_self.mpr (fun m hm => by simpa using hnone m hm)


theorem modifyAt_append {α : Type} (f : α → α) (l1 : List α) (a : α) (l2 : List α) :
    modifyAt f l1.length (l1 ++ a :: l2) = l1 ++ f a :: l2 := by
  induction l1 with
  | nil => rfl
  | cons b bs ih => simp [modifyAt, ih]

theorem run_forEachChannel_prefix (env : Collaborators) (server : TwitchIrcServer)
    (msg : MessagePtr) (o : Option MessageFlags) (k : Nat) (hk : k ≤ server.channels.length) :
    server.run env ((List.range k).map (fun j => Call.addMessage (.channel j) msg o)) =
      { server with channels :=
          (server.channels.take k).map (Channel.addMessage msg) ++ server.channels.drop k } := by
  induction k with
  | zero => simp [TwitchIrcServer.run]
  | succ k ih =>
    have hlt : k < server.channels.length := hk
    rw [List.range_succ, List.map_append, run_append, ih (Nat.le_of_lt hlt)]
    simp only [List.map_cons, List.map_nil, TwitchIrcServer.run, List.foldl_cons,
      List.foldl_nil, TwitchIrcServer.apply, TwitchIrcServer.modify]
    have hdrop : server.channels.drop k =
        server.channels.get ⟨k, hlt⟩ :: server.channels.drop (k + 1) := by
      simp
    have hlen : ((server.channels.take k).map (Channel.addMessage msg)).length = k := by
      simp [Nat.le_of_lt hlt]
    have hmod := modifyAt_append (Channel.addMessage msg)
      ((server.channels.take k).map (Channel.addMessage msg))
      (server.channels.get ⟨k, hlt⟩) (server.channels.drop (k + 1))
    rw [hlen] at hmod
    rw [hdrop, hmod]
    congr 1
    rw [List.take_succ, List.getElem?_eq_getElem hlt]
    simp only [Option.toList, List.map_append, List.map_cons, List.map_nil, List.append_assoc,
      List.singleton_append, List.get_eq_getElem]

theorem run_forEachChannel (env : Collaborators) (server : TwitchIrcServer)
    (msg : MessagePtr) (o : Option MessageFlags) :
    server.run env (server.forEachChannel.map (fun c => Call.addMessage c msg o)) =
      { server with channels := server.channels.map (Channel.addMessage msg) } := by
  have h := run_forEachChannel_prefix env server msg o server.channels.length (Nat.le_refl _)
  simp only [TwitchIrcServer.forEachChannel, List.map_map]
  simpa using h

theorem forEachChannelAndSpecialChannels_nodup (server : TwitchIrcServer) :
    server.forEachChannelAndSpecialChannels.Nodup := by
  unfold TwitchIrcServer.forEachChannelAndSpecialChannels TwitchIrcServer.forEachChannel
  rw [List.nodup_append]
  refine ⟨?_, by simp, ?_⟩
  · exact List.Nodup.map (fun a b h => by simpa using h) (List.nodup_range _)
  · intro c hc hc'
    simp only [List.mem_map, List.mem_range] at hc
    rcases hc with ⟨j, _, rfl⟩
    simp at hc'

/-- C9: a NOTICE whose target resolves to "jtv" adds the built message to every
open channel and to the special channels, once each, and makes no
`getChannelOrEmpty` call. -/
theorem notice_to_jtv_is_broadcast (env : Collaborators) (server : TwitchIrcServer)
    (message : IrcNoticeMessage)
    (hjtv : trimChannelName message.target = some "jtv") :
    ∃ msg, parseNoticeMessage env message = [msg] ∧
      handleNoticeMessage env server message =
        server.forEachChannelAndSpecialChannels.map
          (fun c => Call.addMessage c msg Option.none) ∧
      (∀ j, j < server.channels.length →
        ChannelPtr.channel j ∈ server.forEachChannelAndSpecialChannels) ∧
      ChannelPtr.whispers ∈ server.forEachChannelAndSpecialChannels ∧
      ChannelPtr.mentions ∈ server.forEachChannelAndSpecialChannels ∧
      (∀ c ∈ server.forEachChannelAndSpecialChannels,
        (handleNoticeMessage env server message).count
          (Call.addMessage c msg Option.none) = 1) ∧
      (∀ name, Call.getChannelOrEmpty name ∉ handleNoticeMessage env server message) ∧
      server.run env (handleNoticeMessage env server message) =
        { server with
          channels := server.channels.map (Channel.addMessage msg),
          whispersChannel := Channel.addMessage msg server.whispersChannel,
          mentionsChannel := Channel.addMessage msg server.mentionsChannel } := by
  have hbuilt : ∃ msg, parseNoticeMessage env message = [msg] := by
    unfold parseNoticeMessage
    split
    · exact ⟨_, rfl⟩
    · exact ⟨_, rfl⟩
  obtain ⟨msg, hmsg⟩ := hbuilt
  have hcalls : handleNoticeMessage env server message =
      server.forEachChannelAndSpecialChannels.map
        (fun c => Call.addMessage c msg Option.none) := by
    unfold handleNoticeMessage
    rw [hmsg]
    simp [handleNoticeLoop, hjtv]
  refine ⟨msg, hmsg, hcalls, ?_, ?_, ?_, ?_, ?_, ?_⟩
  · intro j hj
    simp [TwitchIrcServer.forEachChannelAndSpecialChannels, TwitchIrcServer.forEachChannel, hj]
  · simp [TwitchIrcServer.forEachChannelAndSpecialChannels]
  · simp [TwitchIrcServer.forEachChannelAndSpecialChannels]
  · intro c hc
    rw [hcalls]
    have hinj : Function.Injective (fun c => Call.addMessage c msg Option.none) :=
      fun a b h => by simpa using h
    rw [List.count_map_of_injective _ _ hinj]
    exact List.count_eq_one_of_mem (forEachChannelAndSpecialChannels_nodup server) hc
  · intro name hmem
    rw [hcalls] at hmem
    simp at hmem
  · rw [hcalls]
    unfold TwitchIrcServer.forEachChannelAndSpecialChannels
    rw [List.map_append, run_append, run_forEachChannel]
    rfl


/-- C1 at "vip/1,broken,a/b/c,vip/2": only the two-part segments give entries. -/
theorem parseBadges_only_wellformed_witness :
    parseBadges "vip/1,broken,a/b/c,vip/2" = [("vip", "2")] ∧
    ∃ seg ∈ QString.split "vip/1,broken,a/b/c,vip/2" ',', QString.split seg '/' = ["vip", "2"] :=
  ⟨by decide, (parseBadges_only_wellformed "vip/1,broken,a/b/c,vip/2").1 "vip" "2" (by decide)⟩

/-- C2 at a ROOMSTATE carrying only `emote-only`: the other five fields keep
their values. -/
theorem handleRoomStateMessage_absent_tags_unchanged_witness :
    ∃ tc, ((exampleServer.run exampleEnv
        (handleRoomStateMessage exampleEnv exampleServer exampleRoomState)).deref
          (.channel 0)).twitch = some tc ∧
      tc.roomModes.slowMode = 30 ∧ tc.roomModes.r9k = true ∧
      tc.roomModes.broadcasterLang = "en" ∧ tc.roomModes.followerOnly = -1 ∧
      tc.roomModes.submode = false := by
  obtain ⟨tc, h, _, hsub, hslow, hr9k, hlang, hfollow⟩ :=
    handleRoomStateMessage_absent_tags_unchanged exampleEnv exampleServer exampleRoomState
      "forsen" 0 ⟨"", ⟨false, true, false, -1, 30, "en"⟩, false, false, false, [], []⟩
      (by decide) (by decide) (by decide)
  exact ⟨tc, h, hslow (by decide), hr9k (by decide), hlang (by decide), hfollow (by decide),
    hsub (by decide)⟩

/-- C3 at a PRIVMSG the ignore rules match: only the lookup is made. -/
theorem ignored_privmsg_produces_nothing_witness :
    parsePrivMessage exampleEnv (.channel 0) exampleIgnoredPrivMsg = ([], []) ∧
    handlePrivMessage exampleEnv exampleServer exampleIgnoredPrivMsg =
      [.getChannelOrEmpty "forsen"] ∧
    exampleServer.run exampleEnv
      (handlePrivMessage exampleEnv exampleServer exampleIgnoredPrivMsg) = exampleServer :=
  ⟨(ignored_privmsg_produces_nothing exampleEnv exampleServer (.channel 0)
      exampleIgnoredPrivMsg rfl (fun _ _ => rfl)).1,
    by decide,
    (ignored_privmsg_produces_nothing exampleEnv exampleServer (.channel 0)
      exampleIgnoredPrivMsg rfl (fun _ _ => rfl)).2.2⟩

/-- C4 at a resub with content "ping", which the highlight rules match. -/
theorem resub_with_content_gives_two_messages_witness :
    ∃ contentMsg systemMsg,
      parseUserNoticeMessage exampleEnv (.channel 0) exampleResub =
        some [contentMsg, systemMsg] ∧
      contentMsg.origin = .twitchMessage
        ⟨.channel 0, exampleResub, ⟨true, false, false⟩, "ping", false⟩ ∧
      contentMsg.flags.has .Subscription = true ∧
      contentMsg.flags.has .Highlighted = false ∧
      systemMsg.origin = .systemMessage "bob resubscribed" ∧
      systemMsg.flags.has .Subscription = true :=
  resub_with_content_gives_two_messages exampleEnv (.channel 0) exampleResub "#forsen" "ping" []
    "bob resubscribed" rfl (by decide) (by decide) (by decide)

/-- C6 at ("bob", "600", "spam") and, with both tags absent, ("bob", "", ""). -/
theorem clearChat_timeout_arguments_witness :
    (handleClearChatMessage exampleEnv exampleServer exampleTimeout =
      [.getChannelOrEmpty "forsen",
       .addOrReplaceTimeout (.channel 0)
         (MessageBuilder.timeoutMessage exampleEnv "bob" "600" "spam" false),
       .repaintVisibleChatWidgets (.channel 0), .forceLayoutChannelViews]) ∧
    (handleClearChatMessage exampleEnv exampleServer exampleBan =
      [.getChannelOrEmpty "forsen",
       .addOrReplaceTimeout (.channel 0)
         (MessageBuilder.timeoutMessage exampleEnv "bob" "" "" false),
       .repaintVisibleChatWidgets (.channel 0), .forceLayoutChannelViews]) :=
  ⟨(clearChat_timeout_arguments exampleEnv exampleServer exampleTimeout "#forsen" "bob"
      "forsen" [] 0 rfl (by decide) (by decide)).1,
    (clearChat_timeout_arguments exampleEnv exampleServer exampleBan "#forsen" "bob"
      "forsen" [] 0 rfl (by decide) (by decide)).1⟩

/-- C7 at `target-msg-id=abc123`: that message goes, the other stays. -/
theorem clearMsg_deletes_target_id_witness :
    handleClearMessageMessage exampleServer exampleClearMsg =
      [.getChannelOrEmpty "forsen", .deleteMessage (.channel 0) "abc123"] ∧
    ((exampleServer.run exampleEnv
        (handleClearMessageMessage exampleServer exampleClearMsg)).deref
          (.channel 0)).messages = [exampleNotice] :=
  ⟨(clearMsg_deletes_target_id exampleEnv exampleServer exampleClearMsg "#forsen" "forsen" []
      0 "abc123" rfl (by decide) (by decide) (by decide)).1,
    (clearMsg_deletes_target_id exampleEnv exampleServer exampleClearMsg "#forsen" "forsen" []
      0 "abc123" rfl (by decide) (by decide) (by decide)).2.1⟩

/-- C8: a CLEARMSG without a `target-msg-id` tag still issues a delete request, for
the empty id, and the stored message with an empty id is removed from the store. -/
theorem clearMsg_without_target_id_deletes_empty_id :
    IrcTags.find exampleClearMsgNoId.tags "target-msg-id" = Option.none ∧
    handleClearMessageMessage exampleServer exampleClearMsgNoId =
      [.getChannelOrEmpty "forsen", .deleteMessage (.channel 0) ""] ∧
    (exampleServer.deref (.channel 0)).messages = [exampleNotice, exampleChat] ∧
    ((exampleServer.run exampleEnv
        (handleClearMessageMessage exampleServer exampleClearMsgNoId)).deref
          (.channel 0)).messages = [exampleChat] := by
  decide

/-- C9 at a NOTICE to "#jtv" on a server with two open channels. -/
theorem notice_to_jtv_is_broadcast_witness :
    handleNoticeMessage exampleEnv exampleServer exampleJtvNotice =
      [.addMessage (.channel 0) (makeSystemMessage exampleEnv "maintenance") Option.none,
       .addMessage (.channel 1) (makeSystemMessage exampleEnv "maintenance") Option.none,
       .addMessage .whispers (makeSystemMessage exampleEnv "maintenance") Option.none,
       .addMessage .mentions (makeSystemMessage exampleEnv "maintenance") Option.none] := by
  obtain ⟨msg, hmsg, hcalls, _⟩ :=
    notice_to_jtv_is_broadcast exampleEnv exampleServer exampleJtvNotice (by decide)
  have hm : msg = makeSystemMessage exampleEnv "maintenance" := by
    have h : parseNoticeMessage exampleEnv exampleJtvNotice =
        [makeSystemMessage exampleEnv "maintenance"] := by decide
    rw [h] at hmsg
    exact (List.cons.inj hmsg).1.symm
  rw [hcalls, hm]
  decide

/-- C11 (as amended): when `trimChannelName` fails on the channel token, `addMessage`,
`handleRoomStateMessage`, `handleClearChatMessage`, `handleClearMessageMessage`,
`handleUserStateMessage` and `handleUserNoticeMessage` make no call at all, so
no state is mutated and no message is added; `handleNoticeMessage` instead adds
the built message to every open channel and the special channels. -/
theorem unresolved_channel_drops_event_except_notice (env : Collaborators)
    (server : TwitchIrcServer) (message : IrcMessage) (notice : IrcNoticeMessage)
    (target content : QString) (isSub isAction : Bool)
    (htarget : trimChannelName target = Option.none)
    (hparam : trimChannelName (message.parameter 0) = Option.none)
    (hnotice : trimChannelName notice.target = Option.none) :
    addMessage env server message target content isSub isAction = [] ∧
    handleRoomStateMessage env server message = [] ∧
    handleClearChatMessage env server message = [] ∧
    handleClearMessageMessage server message = [] ∧
    handleUserStateMessage server message = [] ∧
    (message.parameters ≠ [] → handleUserNoticeMessage env server message = some []) ∧
    (∃ msg, parseNoticeMessage env notice = [msg] ∧
      handleNoticeMessage env server notice =
        server.forEachChannelAndSpecialChannels.map
          (fun c => Call.addMessage c msg Option.none)) := by
  have hadd : ∀ (t c : QString) (s a : Bool), trimChannelName t = Option.none →
      addMessage env server message t c s a = [] := by
    intro t c s a ht
    simp [addMessage, ht]
  refine ⟨hadd _ _ _ _ htarget, ?_, ?_, ?_, ?_, ?_, ?_⟩
  · simp [handleRoomStateMessage, hparam]
  · simp [handleClearChatMessage, hparam]
  · simp [handleClearMessageMessage, hparam]
  · simp [handleUserStateMessage, hparam]
  · intro hne
    cases hp : message.parameters with
    | nil => exact absurd hp hne
    | cons p0 rest =>
      have h0 : trimChannelName p0 = Option.none := by
        simpa [IrcMessage.parameter, hp] using hparam
      unfold handleUserNoticeMessage
      simp only [hp, hparam]
      simp [hadd _ _ _ _ h0]
      cases IrcTags.find message.tags "system-msg" <;> simp
  · have hbuilt : ∃ msg, parseNoticeMessage env notice = [msg] := by
      unfold parseNoticeMessage
      split
      · exact ⟨_, rfl⟩
      · exact ⟨_, rfl⟩
    obtain ⟨msg, hmsg⟩ := hbuilt
    refine ⟨msg, hmsg, ?_⟩
    unfold handleNoticeMessage
    rw [hmsg]
    simp [handleNoticeLoop, hnotice]

/-- C11 (as stated) fails: a NOTICE whose target cannot be resolved adds the built
message to every open channel and the special channels. -/
theorem notice_with_unresolved_target_is_broadcast :
    trimChannelName exampleUnresolvedNotice.target = Option.none ∧
    handleNoticeMessage exampleEnv exampleServer exampleUnresolvedNotice =
      [.addMessage (.channel 0) (makeSystemMessage exampleEnv "maintenance") Option.none,
       .addMessage (.channel 1) (makeSystemMessage exampleEnv "maintenance") Option.none,
       .addMessage .whispers (makeSystemMessage exampleEnv "maintenance") Option.none,
       .addMessage .mentions (makeSystemMessage exampleEnv "maintenance") Option.none] ∧
    ((exampleServer.run exampleEnv
        (handleNoticeMessage exampleEnv exampleServer exampleUnresolvedNotice)).deref
          (.channel 1)).messages = [makeSystemMessage exampleEnv "maintenance"] ∧
    exampleServer.run exampleEnv
        (handleNoticeMessage exampleEnv exampleServer exampleUnresolvedNotice) ≠
      exampleServer := by
  decide

/-- C11 (as amended) at the channel token "#". -/
theorem unresolved_channel_drops_event_except_notice_witness :
    addMessage exampleEnv exampleServer exampleUnresolvedEvent "#" "hello" true false = [] ∧
    handleRoomStateMessage exampleEnv exampleServer exampleUnresolvedEvent = [] ∧
    handleClearChatMessage exampleEnv exampleServer exampleUnresolvedEvent = [] ∧
    handleClearMessageMessage exampleServer exampleUnresolvedEvent = [] ∧
    handleUserStateMessage exampleServer exampleUnresolvedEvent = [] ∧
    handleUserNoticeMessage exampleEnv exampleServer exampleUnresolvedEvent = some [] :=
  have h := unresolved_channel_drops_event_except_notice exampleEnv exampleServer
    exampleUnresolvedEvent exampleUnresolvedNotice "#" "hello" true false
    (by decide) (by decide) (by decide)
  ⟨h.1, h.2.1, h.2.2.1, h.2.2.2.1, h.2.2.2.2.1, h.2.2.2.2.2.1 (by decide)⟩

/-! ## MODE and USERSTATE -/

theorem deref_modify_twitch (server : TwitchIrcServer) (f : TwitchChannel → TwitchChannel)
    (i : Nat) (h : i < server.channels.length) :
    ((server.modify (Channel.modifyTwitch f) (.channel i)).deref (.channel i)).twitch =
      ((server.deref (.channel i)).twitch).map f := by
  rw [deref_modify_channel _ _ _ h]
  rfl

/-- C12: a MODE event that resolves to a live channel with moderator list `L`
leaves `L` followed by parameter 2 when parameter 1 is "+o" or "-o" (whether or
not the nickname is already in `L`), and leaves `L` unchanged for every other
parameter 1. The event resolves to the channel when `parameter(0).remove(0, 1)`
is the name of that channel. -/
theorem mode_appends_to_moderator_list (env : Collaborators) (server : TwitchIrcServer)
    (message : IrcMessage) (name : QString) (i : Nat)
    (hname : QString.removeFirst (message.parameter 0) = some name)
    (hchan : server.getChannelOrEmpty name = .channel i)
    (hlive : (server.deref (.channel i)).isEmpty = false) :
    ((message.parameter 1 = "+o" ∨ message.parameter 1 = "-o") →
      ((server.run env (handleModeMessage server message)).deref (.channel i)).modList =
        (server.deref (.channel i)).modList ++ [message.parameter 2]) ∧
    ((message.parameter 1 ≠ "+o" ∧ message.parameter 1 ≠ "-o") →
      ((server.run env (handleModeMessage server message)).deref (.channel i)).modList =
        (server.deref (.channel i)).modList) := by
  have hlen := (getChannelOrEmpty_channel server _ i hchan).1
  have happend : server.run env
        [.getChannelOrEmpty name, .modListAppend (.channel i) (message.parameter 2)] =
      server.modify (fun c => { c with modList := c.modList ++ [message.parameter 2] })
        (.channel i) := rfl
  refine ⟨?_, ?_⟩
  · intro hop
    have hcalls : handleModeMessage server message =
        [.getChannelOrEmpty name, .modListAppend (.channel i) (message.parameter 2)] := by
      unfold handleModeMessage
      simp only [hname, hchan, hlive]
      rcases hop with h | h
      · simp [h]
      · simp [h]
    rw [hcalls, happend, deref_modify_channel _ _ _ hlen]
  · intro hop
    have hcalls : handleModeMessage server message = [.getChannelOrEmpty name] := by
      unfold handleModeMessage
      simp [hname, hchan, hlive, hop.1, hop.2]
    rw [hcalls]
    rfl

/-- C12 at "+o bob" and "-o bob" on "#forsen". -/
theorem mode_appends_to_moderator_list_witness :
    ((exampleServer.run exampleEnv (handleModeMessage exampleServer exampleModeGrant)).deref
      (.channel 0)).modList = ["bob"] ∧
    (((exampleServer.run exampleEnv (handleModeMessage exampleServer exampleModeGrant)).run
        exampleEnv
        (handleModeMessage
          (exampleServer.run exampleEnv (handleModeMessage exampleServer exampleModeGrant))
          exampleModeRevoke)).deref (.channel 0)).modList = ["bob", "bob"] :=
  ⟨(mode_appends_to_moderator_list exampleEnv exampleServer exampleModeGrant "forsen" 0
      (by decide) (by decide) (by decide)).1 (Or.inl (by decide)),
    (mode_appends_to_moderator_list exampleEnv
      (exampleServer.run exampleEnv (handleModeMessage exampleServer exampleModeGrant))
      exampleModeRevoke "forsen" 0 (by decide) (by decide) (by decide)).1
      (Or.inr (by decide))⟩

/-- C13: a USERSTATE event on a live Twitch channel sets VIP and staff status from
the parsed `badges` tag when it is present and keeps them otherwise, sets mod
status to `value == "1"` when the `mod` tag is present and keeps it otherwise;
with neither tag the server state is unchanged. -/
theorem userState_updates_present_tags_only (env : Collaborators) (server : TwitchIrcServer)
    (message : IrcMessage) (channelName : QString) (i : Nat) (tc : TwitchChannel)
    (hname : trimChannelName (message.parameter 0) = some channelName)
    (hchan : server.getChannelOrEmpty channelName = .channel i)
    (htw : (server.deref (.channel i)).twitch = some tc) :
    ∃ tc', ((server.run env (handleUserStateMessage server message)).deref
        (.channel i)).twitch = some tc' ∧
      (∀ badges, message.tag "badges" = some badges →
        tc'.vip = QMap.contains (parseBadges badges) "vip" ∧
        tc'.staff = QMap.contains (parseBadges badges) "staff") ∧
      (message.tag "badges" = Option.none → tc'.vip = tc.vip ∧ tc'.staff = tc.staff) ∧
      (∀ value, message.tag "mod" = some value → tc'.mod = decide (value = "1")) ∧
      (message.tag "mod" = Option.none → tc'.mod = tc.mod) ∧
      (message.tag "badges" = Option.none → message.tag "mod" = Option.none →
        server.run env (handleUserStateMessage server message) = server) := by
  have hlen := (getChannelOrEmpty_channel server channelName i hchan).1
  have hlive := live_channel server _ channelName i hname hchan
  have htws : (server.deref (.channel i)).twitch.isSome = true := by simp [htw]
  cases hb : message.tag "badges" with
  | none =>
    cases hm : message.tag "mod" with
    | none =>
      have hcalls : handleUserStateMessage server message =
          [.getChannelOrEmpty channelName] := by
        unfold handleUserStateMessage
        simp [hname, hchan, hlive, hb, hm, QVariant.isValid]
      refine ⟨tc, ?_, ?_, ?_, ?_, ?_, ?_⟩
      · rw [hcalls]; exact htw
      · intro b h; cases h
      · intro _; exact ⟨rfl, rfl⟩
      · intro v h; cases h
      · intro _; rfl
      · intro _ _; rw [hcalls]; rfl
    | some value =>
      have hcalls : handleUserStateMessage server message =
          [.getChannelOrEmpty channelName, .setMod (.channel i) (decide (value = "1"))] := by
        unfold handleUserStateMessage
        simp [hname, hchan, hlive, hb, hm, QVariant.isValid, htws]
      refine ⟨{ tc with mod := decide (value = "1") }, ?_, ?_, ?_, ?_, ?_, ?_⟩
      · rw [hcalls]
        simp only [TwitchIrcServer.run, List.foldl_cons, List.foldl_nil, TwitchIrcServer.apply]
        rw [deref_modify_twitch _ _ _ hlen, htw]
        rfl
      · intro b h; cases h
      · intro _; exact ⟨rfl, rfl⟩
      · intro v h; cases h; rfl
      · intro h; cases h
      · intro _ h; cases h
  | some badges =>
    cases hm : message.tag "mod" with
    | none =>
      have hcalls : handleUserStateMessage server message =
          [.getChannelOrEmpty channelName,
           .setVIP (.channel i) (QMap.contains (parseBadges badges) "vip"),
           .setStaff (.channel i) (QMap.contains (parseBadges badges) "staff")] := by
        unfold handleUserStateMessage
        simp [hname, hchan, hlive, hb, hm, QVariant.isValid, QVariant.toString, htws]
      refine ⟨{ tc with vip := QMap.contains (parseBadges badges) "vip",
                        staff := QMap.contains (parseBadges badges) "staff" },
        ?_, ?_, ?_, ?_, ?_, ?_⟩
      · rw [hcalls]
        simp only [TwitchIrcServer.run, List.foldl_cons, List.foldl_nil, TwitchIrcServer.apply]
        rw [deref_modify_twitch _ _ _ (by rw [modify_channels_length]; exact hlen),
          deref_modify_twitch _ _ _ hlen, htw]
        rfl
      · intro b h; cases h; exact ⟨rfl, rfl⟩
      · intro h; cases h
      · intro v h; cases h
      · intro _; rfl
      · intro h; cases h
    | some value =>
      have hcalls : handleUserStateMessage server message =
          [.getChannelOrEmpty channelName,
           .setVIP (.channel i) (QMap.contains (parseBadges badges) "vip"),
           .setStaff (.channel i) (QMap.contains (parseBadges badges) "staff"),
           .setMod (.channel i) (decide (value = "1"))] := by
        unfold handleUserStateMessage
        simp [hname, hchan, hlive, hb, hm, QVariant.isValid, QVariant.toString, htws]
      refine ⟨{ tc with vip := QMap.contains (parseBadges badges) "vip",
                        staff := QMap.contains (parseBadges badges) "staff",
                        mod := decide (value = "1") },
        ?_, ?_, ?_, ?_, ?_, ?_⟩
      · rw [hcalls]
        simp only [TwitchIrcServer.run, List.foldl_cons, List.foldl_nil, TwitchIrcServer.apply]
        rw [deref_modify_twitch _ _ _
            (by rw [modify_channels_length, modify_channels_length]; exact hlen),
          deref_modify_twitch _ _ _ (by rw [modify_channels_length]; exact hlen),
          deref_modify_twitch _ _ _ hlen, htw]
        rfl
      · intro b h; cases h; exact ⟨rfl, rfl⟩
      · intro h; cases h
      · intro v h; cases h; rfl
      · intro h; cases h
      · intro h; cases h

/-- C13 at a USERSTATE with `badges=vip/1,subscriber/12` and `mod=1`, and at one
with neither tag. -/
theorem userState_updates_present_tags_only_witness :
    (∃ tc, ((exampleServer.run exampleEnv
        (handleUserStateMessage exampleServer exampleUserState)).deref (.channel 0)).twitch =
          some tc ∧ tc.vip = true ∧ tc.staff = false ∧ tc.mod = true) ∧
    exampleServer.run exampleEnv
      (handleUserStateMessage exampleServer exampleUserStateNoTags) = exampleServer := by
  obtain ⟨tc, h, hb, _, hm, _, _⟩ :=
    userState_updates_present_tags_only exampleEnv exampleServer exampleUserState "forsen" 0
      ⟨"", ⟨false, true, false, -1, 30, "en"⟩, false, false, false, [], []⟩
      (by decide) (by decide) (by decide)
  obtain ⟨_, _, _, _, _, _, hsame⟩ :=
    userState_updates_present_tags_only exampleEnv exampleServer exampleUserStateNoTags
      "forsen" 0 ⟨"", ⟨false, true, false, -1, 30, "en"⟩, false, false, false, [], []⟩
      (by decide) (by decide) (by decide)
  refine ⟨⟨tc, h, ?_, ?_, ?_⟩, hsame (by decide) (by decide)⟩
  · rw [(hb "vip/1,subscriber/12" (by decide)).1]; decide
  · rw [(hb "vip/1,subscriber/12" (by decide)).2]; decide
  · rw [hm "1" (by decide)]; decide

/-! ## Whispers -/

/-- The calls of `handleWhisperMessage` for a whisper the builder does not report
as ignored, with inline whispers enabled; the message is built with the Whisper
flag set beforehand. -/
theorem whisper_calls (env : Collaborators) (server : TwitchIrcServer) (message : IrcMessage)
    (hnot : (TwitchMessageBuilder.new .whispers message ⟨false, false, true⟩
      (message.parameter 1) false).isIgnored env = false)
    (hinline : env.inlineWhispers = true) :
    handleWhisperMessage env server message =
      [.log "Received whisper!",
       .triggerHighlights ⟨.whispers, message, ⟨false, false, true⟩, message.parameter 1, false⟩,
       .setLastUserThatWhisperedMe
         (env.userName ⟨.whispers, message, ⟨false, false, true⟩, message.parameter 1, false⟩)]
      ++ (if (TwitchMessageBuilder.build env
              ⟨⟨.whispers, message, ⟨false, false, true⟩, message.parameter 1, false⟩,
                MessageFlags.none.set .Whisper⟩).flags.has .Highlighted
          then [.addMessage .mentions
            (TwitchMessageBuilder.build env
              ⟨⟨.whispers, message, ⟨false, false, true⟩, message.parameter 1, false⟩,
                MessageFlags.none.set .Whisper⟩) Option.none]
          else [])
      ++ [.addMessage .whispers
            (TwitchMessageBuilder.build env
              ⟨⟨.whispers, message, ⟨false, false, true⟩, message.parameter 1, false⟩,
                MessageFlags.none.set .Whisper⟩) Option.none]
      ++ server.forEachChannel.map (fun channel => Call.addMessage channel
            (TwitchMessageBuilder.build env
              ⟨⟨.whispers, message, ⟨false, false, true⟩, message.parameter 1, false⟩,
                MessageFlags.none.set .Whisper⟩)
            (some (((TwitchMessageBuilder.build env
              ⟨⟨.whispers, message, ⟨false, false, true⟩, message.parameter 1, false⟩,
                MessageFlags.none.set .Whisper⟩).flags.set .DoNotTriggerNotification).set
                  .DoNotLog))) := by
  have hnot' := hnot
  simp only [TwitchMessageBuilder.new] at hnot'
  unfold handleWhisperMessage
  simp only [MessageParseArgs.default, TwitchMessageBuilder.new, hnot', hinline]
  simp

/-- C14: for a non-ignored whisper with inline whispers enabled, every open channel
is passed the built message together with override flags that are the built
flags plus DoNotTriggerNotification and DoNotLog; the whispers channel is passed
the built message without override, and every message passed to any channel is
the built message itself, its flag set as built; what the whispers channel
stores is that message. -/
theorem whisper_override_flags_only_on_copies (env : Collaborators)
    (server : TwitchIrcServer) (message : IrcMessage)
    (hnot : (TwitchMessageBuilder.new .whispers message ⟨false, false, true⟩
      (message.parameter 1) false).isIgnored env = false)
    (hinline : env.inlineWhispers = true) :
    ∃ built overrideFlags,
      built = TwitchMessageBuilder.build env
        ⟨⟨.whispers, message, ⟨false, false, true⟩, message.parameter 1, false⟩,
          MessageFlags.none.set .Whisper⟩ ∧
      overrideFlags = (built.flags.set .DoNotTriggerNotification).set .DoNotLog ∧
      overrideFlags.has .DoNotTriggerNotification = true ∧
      overrideFlags.has .DoNotLog = true ∧
      overrideFlags.has .Subscription = built.flags.has .Subscription ∧
      overrideFlags.has .Highlighted = built.flags.has .Highlighted ∧
      overrideFlags.has .Whisper = built.flags.has .Whisper ∧
      overrideFlags.has .Disabled = built.flags.has .Disabled ∧
      (∀ j, j < server.channels.length →
        Call.addMessage (.channel j) built (some overrideFlags) ∈
          handleWhisperMessage env server message) ∧
      Call.addMessage .whispers built Option.none ∈ handleWhisperMessage env server message ∧
      (∀ chan msg o, Call.addMessage chan msg o ∈ handleWhisperMessage env server message →
        msg = built ∧ (chan = .whispers → o = Option.none)) ∧
      (server.run env (handleWhisperMessage env server message)).whispersChannel =
        Channel.addMessage built server.whispersChannel ∧
      (server.whispersChannel.messages.length < server.whispersChannel.messageLimit →
        (server.run env (handleWhisperMessage env server message)).whispersChannel.messages =
          server.whispersChannel.messages ++ [built]) := by
  have hstored : (server.run env (handleWhisperMessage env server message)).whispersChannel =
      Channel.addMessage
        (TwitchMessageBuilder.build env
          ⟨⟨.whispers, message, ⟨false, false, true⟩, message.parameter 1, false⟩,
            MessageFlags.none.set .Whisper⟩) server.whispersChannel := by
    rw [whisper_calls env server message hnot hinline, run_append, run_append]
    split
    · simp only [List.cons_append, List.nil_append, TwitchIrcServer.run, List.foldl_cons,
        List.foldl_nil, TwitchIrcServer.apply, TwitchIrcServer.modify]
      exact congrArg (fun s => s.whispersChannel) (run_forEachChannel env _ _ _)
    · simp only [List.cons_append, List.nil_append, List.append_nil, TwitchIrcServer.run,
        List.foldl_cons, List.foldl_nil, TwitchIrcServer.apply, TwitchIrcServer.modify]
      exact congrArg (fun s => s.whispersChannel) (run_forEachChannel env _ _ _)
  refine ⟨_, _, rfl, rfl, ?_, ?_, ?_, ?_, ?_, ?_, ?_, ?_, ?_, hstored, ?_⟩
  · simp [MessageFlags.has, MessageFlags.set]
  · simp [MessageFlags.has, MessageFlags.set]
  · simp [MessageFlags.has, MessageFlags.set]
  · simp [MessageFlags.has, MessageFlags.set]
  · simp [MessageFlags.has, MessageFlags.set]
  · simp [MessageFlags.has, MessageFlags.set]
  · intro j hj
    rw [whisper_calls env server message hnot hinline]
    apply List.mem_append_right
    simp only [TwitchIrcServer.forEachChannel, List.map_map, List.mem_map, List.mem_range]
    exact ⟨j, hj, rfl⟩
  · rw [whisper_calls env server message hnot hinline]
    apply List.mem_append_left
    apply List.mem_append_right
    simp
  · intro chan msg o hmem
    rw [whisper_calls env server message hnot hinline] at hmem
    simp only [List.mem_append, List.mem_cons, List.mem_singleton, List.mem_map,
      List.mem_nil_iff, or_false] at hmem
    rcases hmem with ((h | h) | h) | h
    · rcases h with h | h | h <;> cases h
    · split at h
      · simp only [List.mem_singleton] at h
        cases h
        exact ⟨rfl, fun h => by cases h⟩
      · simp at h
    · cases h
      exact ⟨rfl, fun _ => rfl⟩
    · obtain ⟨c, hc, heq⟩ := h
      cases heq
      refine ⟨rfl, ?_⟩
      intro hw
      subst hw
      simp [TwitchIrcServer.forEachChannel] at hc
  · intro hroom
    rw [hstored]
    exact pushBack_of_room _ _ _ hroom

/-- C14 at a whisper "ping", which the highlight rules match, on a server with two
open channels. -/
theorem whisper_override_flags_only_on_copies_witness :
    ∃ built overrideFlags,
      built.flags = ⟨false, true, true, false, false, false⟩ ∧
      overrideFlags = ⟨false, true, true, true, true, false⟩ ∧
      Call.addMessage (.channel 1) built (some overrideFlags) ∈
        handleWhisperMessage exampleEnv exampleServer exampleWhisper ∧
      Call.addMessage .whispers built Option.none ∈
        handleWhisperMessage exampleEnv exampleServer exampleWhisper := by
  obtain ⟨built, overrideFlags, hb, ho, _, _, _, _, _, _, hall, hwh, _, _⟩ :=
    whisper_override_flags_only_on_copies exampleEnv exampleServer exampleWhisper
      (by decide) (by decide)
  refine ⟨built, overrideFlags, ?_, ?_, hall 1 (by decide), hwh⟩
  · rw [hb]; decide
  · rw [ho, hb]; decide

/-! ## NOTICE parsing and the ignore filter -/

/-- C15 (as amended): `parseNoticeMessage` returns exactly one message: the system
message "Login expired! Try logging in again." when the content starts with
"Login auth" compared without regard to case, and the system message whose text
is the raw content when it does not. The result is the "Login expired" message
if and only if the content starts with "Login auth" or is itself the text
"Login expired! Try logging in again.". -/
theorem parseNotice_login_expired_or_raw (env : Collaborators) (message : IrcNoticeMessage) :
    (parseNoticeMessage env message).length = 1 ∧
    (QString.startsWithCaseInsensitive message.content "Login auth" = true →
      parseNoticeMessage env message =
        [MessageBuilder.systemMessage env "Login expired! Try logging in again."] ∧
      (MessageBuilder.systemMessage env "Login expired! Try logging in again.").origin =
        .systemMessage "Login expired! Try logging in again.") ∧
    (QString.startsWithCaseInsensitive message.content "Login auth" = false →
      parseNoticeMessage env message = [makeSystemMessage env message.content] ∧
      (makeSystemMessage env message.content).origin = .systemMessage message.content) ∧
    (parseNoticeMessage env message =
        [MessageBuilder.systemMessage env "Login expired! Try logging in again."] ↔
      (QString.startsWithCaseInsensitive message.content "Login auth" = true ∨
        message.content = "Login expired! Try logging in again.")) := by
  refine ⟨?_, ?_, ?_, ?_⟩
  · unfold parseNoticeMessage
    split <;> rfl
  · intro h
    exact ⟨by simp [parseNoticeMessage, h], rfl⟩
  · intro h
    exact ⟨by simp [parseNoticeMessage, h], rfl⟩
  · cases h : QString.startsWithCaseInsensitive message.content "Login auth" with
    | true => simp [parseNoticeMessage, h]
    | false =>
      have hres : parseNoticeMessage env message = [makeSystemMessage env message.content] := by
        simp [parseNoticeMessage, h]
      rw [hres]
      constructor
      · intro heq
        right
        have ho := congrArg Message.origin (List.cons.inj heq).1
        simpa [makeSystemMessage, MessageBuilder.systemMessage] using ho
      · rintro (hc | hc)
        · cases hc
        · rw [hc]; rfl

/-- C15 (as stated) fails: a NOTICE whose content is "Login expired! Try logging in
again." does not start with "Login auth", and the message returned is the
"Login expired" system message all the same. -/
theorem login_expired_text_without_login_auth :
    QString.startsWithCaseInsensitive exampleLoginExpiredNotice.content "Login auth" = false ∧
    parseNoticeMessage exampleEnv exampleLoginExpiredNotice =
      [MessageBuilder.systemMessage exampleEnv "Login expired! Try logging in again."] ∧
    ¬ (parseNoticeMessage exampleEnv exampleLoginExpiredNotice =
        [MessageBuilder.systemMessage exampleEnv "Login expired! Try logging in again."] ↔
      QString.startsWithCaseInsensitive exampleLoginExpiredNotice.content "Login auth" =
        true) := by
  decide

/-- C15 (as amended) at "login AUTHentication failed" and at "This room is now in
slow mode.". -/
theorem parseNotice_login_expired_or_raw_witness :
    parseNoticeMessage exampleEnv exampleLoginNotice =
      [MessageBuilder.systemMessage exampleEnv "Login expired! Try logging in again."] ∧
    parseNoticeMessage exampleEnv examplePlainNotice =
      [makeSystemMessage exampleEnv "This room is now in slow mode."] :=
  ⟨((parseNotice_login_expired_or_raw exampleEnv exampleLoginNotice).2.1 (by decide)).1,
    ((parseNotice_login_expired_or_raw exampleEnv examplePlainNotice).2.2.1 (by decide)).1⟩

theorem addMessage_ignored (env : Collaborators) (server : TwitchIrcServer)
    (message : IrcMessage) (target content : QString) (isAction : Bool)
    (hignored : ∀ channelName, trimChannelName target = some channelName →
      (TwitchMessageBuilder.new (server.getChannelOrEmpty channelName) message
        ⟨false, (server.deref (server.getChannelOrEmpty channelName)).isBroadcaster, false⟩
        content isAction).isIgnored env = true) :
    ∀ c ∈ addMessage env server message target content false isAction,
      ∃ name, c = Call.getChannelOrEmpty name := by
  unfold addMessage
  cases ht : trimChannelName target with
  | none => simp
  | some channelName =>
    by_cases he : (server.deref (server.getChannelOrEmpty channelName)).isEmpty = true
    · simp [he]
    · have hign := hignored channelName ht
      simp only [he, Bool.false_or, Bool.false_eq_true, if_false, hign, Bool.not_true]
      simp

theorem addMessage_sub_calls (env : Collaborators) (server : TwitchIrcServer)
    (message : IrcMessage) (target content channelName : QString) (i : Nat)
    (hname : trimChannelName target = some channelName)
    (hchan : server.getChannelOrEmpty channelName = .channel i) :
    addMessage env server message target content true false =
      [.getChannelOrEmpty channelName,
       .triggerHighlights
         ⟨.channel i, message, ⟨true, (server.deref (.channel i)).isBroadcaster, false⟩,
           content, false⟩,
       .addMessage (.channel i)
         (TwitchMessageBuilder.build env
           ⟨⟨.channel i, message, ⟨true, (server.deref (.channel i)).isBroadcaster, false⟩,
             content, false⟩,
            (MessageFlags.none.set .Subscription).unset .Highlighted⟩) Option.none]
      ++ (if (server.deref (.channel i)).recentChatters.isSome then
            [.addRecentChatter (.channel i)
              (TwitchMessageBuilder.build env
                ⟨⟨.channel i, message,
                  ⟨true, (server.deref (.channel i)).isBroadcaster, false⟩, content, false⟩,
                 (MessageFlags.none.set .Subscription).unset .Highlighted⟩).displayName]
          else []) := by
  have hlive := live_channel server target channelName i hname hchan
  unfold addMessage
  simp only [hname, hchan, hlive, TwitchMessageBuilder.new]
  simp

/-- C16 (as amended): a message built with `isSub = false` (PRIVMSG through
`parsePrivMessage` and `addMessage`, and a received whisper) is not emitted when
the builder reports it as ignored; for USERNOTICE sub, resub and subgift
content the ignore filter is not consulted: `addMessage` with `isSub = true`
adds the content message to the live channel and `parseUserNoticeMessage`
returns it, whatever the builder reports. -/
theorem ignore_filter_applies_to_non_subscription_only (env : Collaborators)
    (server : TwitchIrcServer) (channel : ChannelPtr) (message : IrcMessage)
    (privMessage : IrcPrivateMessage) (target content : QString) (isAction : Bool) :
    ((TwitchMessageBuilder.new channel privMessage.toIrcMessage MessageParseArgs.default
        privMessage.content privMessage.isAction).isIgnored env = true →
      parsePrivMessage env channel privMessage = ([], [])) ∧
    ((∀ channelName, trimChannelName target = some channelName →
        (TwitchMessageBuilder.new (server.getChannelOrEmpty channelName) message
          ⟨false, (server.deref (server.getChannelOrEmpty channelName)).isBroadcaster, false⟩
          content isAction).isIgnored env = true) →
      ∀ c ∈ addMessage env server message target content false isAction,
        ∃ name, c = Call.getChannelOrEmpty name) ∧
    ((TwitchMessageBuilder.new .whispers message ⟨false, false, true⟩
        (message.parameter 1) false).isIgnored env = true →
      handleWhisperMessage env server message = [.log "Received whisper!"]) ∧
    (∀ channelName i, trimChannelName target = some channelName →
      server.getChannelOrEmpty channelName = .channel i →
      Call.addMessage (.channel i)
        (TwitchMessageBuilder.build env
          ⟨⟨.channel i, message, ⟨true, (server.deref (.channel i)).isBroadcaster, false⟩,
            content, false⟩,
           (MessageFlags.none.set .Subscription).unset .Highlighted⟩) Option.none ∈
        addMessage env server message target content true false) ∧
    (∀ p0 rest, message.parameters = p0 :: content :: rest → content ≠ "" →
      (IrcTags.find message.tags "msg-id" = some "sub" ∨
        IrcTags.find message.tags "msg-id" = some "resub" ∨
        IrcTags.find message.tags "msg-id" = some "subgift") →
      ∃ others, parseUserNoticeMessage env channel message =
        some (TwitchMessageBuilder.build env
          ⟨⟨channel, message, ⟨true, false, false⟩, content, false⟩,
           (MessageFlags.none.set .Subscription).unset .Highlighted⟩ :: others)) := by
  refine ⟨?_, addMessage_ignored env server message target content isAction, ?_, ?_, ?_⟩
  · intro h
    simp [parsePrivMessage, h]
  · intro h
    have h' := h
    simp only [TwitchMessageBuilder.new] at h'
    unfold handleWhisperMessage
    simp only [MessageParseArgs.default, TwitchMessageBuilder.new, h']
    simp
  · intro channelName i hname hchan
    rw [addMessage_sub_calls env server message target content channelName i hname hchan]
    simp
  · intro p0 rest hparams hcontent hid
    unfold parseUserNoticeMessage
    simp only [hparams, IrcTags.valueOr, QVariant.toString]
    simp only [IrcTags.find] at hid
    rcases hid with h | h | h <;>
      simp [h, hcontent, TwitchMessageBuilder.new, MessageParseArgs.default]

/-- C16 (as stated) fails: a resub whose content the ignore filter matches is still
returned by `parseUserNoticeMessage` and added to the channel by
`handleUserNoticeMessage`. -/
theorem ignored_resub_content_is_still_emitted :
    exampleEnv.isIgnored ⟨.channel 0, exampleIgnoredResub, ⟨true, false, false⟩, "spam", false⟩
      = true ∧
    parseUserNoticeMessage exampleEnv (.channel 0) exampleIgnoredResub =
      some [TwitchMessageBuilder.build exampleEnv
        ⟨⟨.channel 0, exampleIgnoredResub, ⟨true, false, false⟩, "spam", false⟩,
         (MessageFlags.none.set .Subscription).unset .Highlighted⟩] ∧
    handleUserNoticeMessage exampleEnv exampleServer exampleIgnoredResub =
      some [.getChannelOrEmpty "forsen",
        .triggerHighlights
          ⟨.channel 0, exampleIgnoredResub, ⟨true, false, false⟩, "spam", false⟩,
        .addMessage (.channel 0)
          (TwitchMessageBuilder.build exampleEnv
            ⟨⟨.channel 0, exampleIgnoredResub, ⟨true, false, false⟩, "spam", false⟩,
             (MessageFlags.none.set .Subscription).unset .Highlighted⟩) Option.none,
        .addRecentChatter (.channel 0) "bob"] := by
  decide

/-- C16 (as amended) at a resub with the ignored content "spam" and at a PRIVMSG
with the same content. -/
theorem ignore_filter_applies_to_non_subscription_only_witness :
    parsePrivMessage exampleEnv (.channel 0) exampleIgnoredPrivMsg = ([], []) ∧
    Call.addMessage (.channel 0)
      (TwitchMessageBuilder.build exampleEnv
        ⟨⟨.channel 0, exampleIgnoredResub, ⟨true, false, false⟩, "spam", false⟩,
         (MessageFlags.none.set .Subscription).unset .Highlighted⟩) Option.none ∈
      addMessage exampleEnv exampleServer exampleIgnoredResub "#forsen" "spam" true false :=
  have h := ignore_filter_applies_to_non_subscription_only exampleEnv exampleServer
    (.channel 0) exampleIgnoredResub exampleIgnoredPrivMsg "#forsen" "spam" false
  ⟨h.1 (by decide), h.2.2.2.1 "forsen" 0 (by decide) (by decide)⟩

/-! ## ROOMSTATE: present tags -/

theorem updateRoomModes_present (env : Collaborators) (tags : IrcTags) (rm : RoomModes) :
    (∀ v, IrcTags.find tags "emote-only" = some v →
      (updateRoomModes env tags rm).emoteOnly = decide (v = "1")) ∧
    (∀ v, IrcTags.find tags "subs-only" = some v →
      (updateRoomModes env tags rm).submode = decide (v = "1")) ∧
    (∀ v, IrcTags.find tags "slow" = some v →
      (updateRoomModes env tags rm).slowMode = env.toInt v) ∧
    (∀ v, IrcTags.find tags "r9k" = some v →
      (updateRoomModes env tags rm).r9k = decide (v = "1")) ∧
    (∀ v, IrcTags.find tags "broadcaster-lang" = some v →
      (updateRoomModes env tags rm).broadcasterLang = v) ∧
    (∀ v, IrcTags.find tags "followers-only" = some v →
      (updateRoomModes env tags rm).followerOnly = env.toInt v) := by
  refine ⟨?_, ?_, ?_, ?_, ?_, ?_⟩ <;> intro v h <;> unfold updateRoomModes <;>
    simp only [h] <;> (repeat' split) <;> rfl

theorem updateRoomModes_idempotent (env : Collaborators) (tags : IrcTags) (rm : RoomModes) :
    updateRoomModes env tags (updateRoomModes env tags rm) = updateRoomModes env tags rm := by
  unfold updateRoomModes
  cases IrcTags.find tags "emote-only" <;> cases IrcTags.find tags "subs-only" <;>
    cases IrcTags.find tags "slow" <;> cases IrcTags.find tags "r9k" <;>
    cases IrcTags.find tags "broadcaster-lang" <;>
    cases IrcTags.find tags "followers-only" <;> rfl

theorem modifyAt_names (f : Channel → Channel) (hf : ∀ c, (f c).name = c.name) (i : Nat)
    (l : List Channel) : (modifyAt f i l).map Channel.name = l.map Channel.name := by
  induction l generalizing i with
  | nil => simp [modifyAt]
  | cons a as ih =>
    cases i with
    | zero => simp [modifyAt, hf]
    | succ i => simp [modifyAt, ih]

theorem lookupIndex_names (name : QString) (l1 l2 : List Channel)
    (h : l1.map Channel.name = l2.map Channel.name) :
    lookupIndex name l1 = lookupIndex name l2 := by
  induction l1 generalizing l2 with
  | nil =>
    cases l2 with
    | nil => rfl
    | cons b bs => simp at h
  | cons a as ih =>
    cases l2 with
    | nil => simp at h
    | cons b bs =>
      simp only [List.map_cons, List.cons.injEq] at h
      simp only [lookupIndex, h.1, ih bs h.2]

theorem modify_names (server : TwitchIrcServer) (f : Channel → Channel)
    (hf : ∀ c, (f c).name = c.name) (p : ChannelPtr) :
    (server.modify f p).channels.map Channel.name = server.channels.map Channel.name := by
  cases p with
  | channel i => exact modifyAt_names f hf i _
  | empty => rfl
  | whispers => rfl
  | mentions => rfl

theorem apply_names (env : Collaborators) (server : TwitchIrcServer) (call : Call) :
    (server.apply env call).channels.map Channel.name = server.channels.map Channel.name := by
  cases call <;> simp only [TwitchIrcServer.apply] <;>
    (apply modify_names; intro c; rfl)

theorem run_names (env : Collaborators) (server : TwitchIrcServer) (calls : List Call) :
    (server.run env calls).channels.map Channel.name = server.channels.map Channel.name := by
  induction calls generalizing server with
  | nil => rfl
  | cons c cs ih =>
    have h := ih (server.apply env c)
    simp only [TwitchIrcServer.run, List.foldl_cons] at h ⊢
    rw [h, apply_names]

theorem run_getChannelOrEmpty (env : Collaborators) (server : TwitchIrcServer)
    (calls : List Call) (name : QString) :
    (server.run env calls).getChannelOrEmpty name = server.getChannelOrEmpty name := by
  unfold TwitchIrcServer.getChannelOrEmpty
  rw [lookupIndex_names name _ _ (run_names env server calls)]

/-- C17: after a ROOMSTATE event on a live Twitch channel every RoomModes field
whose tag is present is the value of that tag alone (`value == "1"` for
`emote-only`, `subs-only` and `r9k`, the string for `broadcaster-lang`, the
integer parse for `slow` and `followers-only`), and handling the same event a
second time leaves the RoomModes of the first time. -/
theorem roomState_present_tags_determine_fields (env : Collaborators)
    (server : TwitchIrcServer) (message : IrcMessage) (chanName : QString) (i : Nat)
    (tc : TwitchChannel)
    (hname : trimChannelName (message.parameter 0) = some chanName)
    (hchan : server.getChannelOrEmpty chanName = .channel i)
    (htw : (server.deref (.channel i)).twitch = some tc) :
    ∃ once twice,
      ((server.run env (handleRoomStateMessage env server message)).deref
        (.channel i)).twitch = some once ∧
      (((server.run env (handleRoomStateMessage env server message)).run env
        (handleRoomStateMessage env
          (server.run env (handleRoomStateMessage env server message)) message)).deref
        (.channel i)).twitch = some twice ∧
      (∀ v, IrcTags.find message.tags "emote-only" = some v →
        once.roomModes.emoteOnly = decide (v = "1")) ∧
      (∀ v, IrcTags.find message.tags "subs-only" = some v →
        once.roomModes.submode = decide (v = "1")) ∧
      (∀ v, IrcTags.find message.tags "slow" = some v →
        once.roomModes.slowMode = env.toInt v) ∧
      (∀ v, IrcTags.find message.tags "r9k" = some v →
        once.roomModes.r9k = decide (v = "1")) ∧
      (∀ v, IrcTags.find message.tags "broadcaster-lang" = some v →
        once.roomModes.broadcasterLang = v) ∧
      (∀ v, IrcTags.find message.tags "followers-only" = some v →
        once.roomModes.followerOnly = env.toInt v) ∧
      twice.roomModes = once.roomModes := by
  have h1 := roomState_twitch env server message chanName i tc hname hchan htw
  have hchan' : (server.run env (handleRoomStateMessage env server message)).getChannelOrEmpty
      chanName = .channel i := by
    rw [run_getChannelOrEmpty]; exact hchan
  have h2 := roomState_twitch env _ message chanName i _ hname hchan' h1
  refine ⟨_, _, h1, h2, ?_⟩
  obtain ⟨a, b, c, d, e, f⟩ := updateRoomModes_present env message.tags tc.roomModes
  exact ⟨a, b, c, d, e, f, updateRoomModes_idempotent env message.tags tc.roomModes⟩

/-- C17 at a ROOMSTATE carrying all six tags: slow mode becomes 12345 and
followers-only 12. -/
theorem roomState_present_tags_determine_fields_witness :
    ∃ once, ((exampleServer.run exampleEnv
        (handleRoomStateMessage exampleEnv exampleServer exampleFullRoomState)).deref
          (.channel 0)).twitch = some once ∧
      once.roomModes = ⟨false, false, true, 12, 12345, "de"⟩ := by
  obtain ⟨once, _, h, _, he, hs, hslow, hr, hl, hf, _⟩ :=
    roomState_present_tags_determine_fields exampleEnv exampleServer exampleFullRoomState
      "forsen" 0 ⟨"", ⟨false, true, false, -1, 30, "en"⟩, false, false, false, [], []⟩
      (by decide) (by decide) (by decide)
  refine ⟨once, h, ?_⟩
  have e1 := he "1" (by decide)
  have e2 := hs "0" (by decide)
  have e3 := hslow "12345" (by decide)
  have e4 := hr "0" (by decide)
  have e5 := hl "de" (by decide)
  have e6 := hf "12" (by decide)
  cases hrm : once.roomModes with
  | mk submode r9k emoteOnly followerOnly slowMode broadcasterLang =>
    rw [hrm] at e1 e2 e3 e4 e5 e6
    simp only at e1 e2 e3 e4 e5 e6
    subst e1 e2 e3 e4 e5 e6
    decide

/-! ## MODE, JOIN and PART: the channel name looked up -/

theorem removeFirst_units (s name : QString) (h : QString.removeFirst s = some name) :
    QString.utf16 name = QString.removeFirstUnits s := by
  unfold QString.removeFirst at h
  unfold QString.removeFirstUnits QString.utf16
  cases hd : s.data with
  | nil =>
    rw [hd] at h
    simp only [Option.some.injEq] at h
    rw [← h]
    rfl
  | cons c rest =>
    rw [hd] at h
    simp only at h
    split at h
    · next hc =>
      simp only [Option.some.injEq] at h
      rw [← h]
      simp [utf16OfChars, utf16Units, hc]
    · cases h

theorem low_surrogate_starts_no_string (low : Nat) (units : List Nat) (h1 : 0xDC00 ≤ low)
    (h2 : low ≤ 0xDFFF) (t : QString) : QString.utf16 t ≠ low :: units := by
  unfold QString.utf16
  cases hd : t.data with
  | nil => simp [utf16OfChars]
  | cons d ds =>
    have hv : d.toNat < 0xD800 ∨ (0xDFFF < d.toNat ∧ d.toNat < 0x110000) := d.valid
    intro heq
    simp only [utf16OfChars, utf16Units] at heq
    split at heq
    · simp only [List.singleton_append, List.cons.injEq] at heq
      omega
    · simp only [List.cons_append, List.cons.injEq] at heq
      omega

theorem removeFirst_none_units (s : QString) (h : QString.removeFirst s = Option.none) :
    ∀ t : QString, QString.utf16 t ≠ QString.removeFirstUnits s := by
  unfold QString.removeFirst at h
  unfold QString.removeFirstUnits
  cases hd : s.data with
  | nil => rw [hd] at h; cases h
  | cons c rest =>
    rw [hd] at h
    simp only at h
    split at h
    · cases h
    · next hc =>
      intro t
      have hunits : (QString.utf16 s).drop 1 =
          (0xDC00 + (c.toNat - 0x10000) % 0x400) :: utf16OfChars rest := by
        simp [QString.utf16, hd, utf16OfChars, utf16Units, hc]
      rw [hunits]
      exact low_surrogate_starts_no_string _ _ (by omega) (by omega) t

theorem mode_lookup_of_name (server : TwitchIrcServer) (message : IrcMessage) (name n : QString)
    (hname : QString.removeFirst (message.parameter 0) = some name) :
    Call.getChannelOrEmpty n ∈ handleModeMessage server message ↔ n = name := by
  unfold handleModeMessage
  simp only [hname, List.mem_cons, Call.getChannelOrEmpty.injEq]
  constructor
  · rintro (h | h)
    · exact h
    · split at h
      · simp at h
      · split at h
        · simp at h
        · split at h <;> simp at h
  · intro h; exact Or.inl h

theorem join_lookup_of_name (env : Collaborators) (server : TwitchIrcServer)
    (message : IrcMessage) (name n : QString)
    (hname : QString.removeFirst (message.parameter 0) = some name) :
    Call.getChannelOrEmpty n ∈ handleJoinMessage env server message ↔ n = name := by
  unfold handleJoinMessage
  simp only [hname, List.mem_cons, Call.getChannelOrEmpty.injEq]
  constructor
  · rintro (h | h)
    · exact h
    · split at h
      · split at h <;> simp at h
      · simp at h
  · intro h; exact Or.inl h

theorem part_lookup_of_name (env : Collaborators) (server : TwitchIrcServer)
    (message : IrcMessage) (name n : QString)
    (hname : QString.removeFirst (message.parameter 0) = some name) :
    Call.getChannelOrEmpty n ∈ handlePartMessage env server message ↔ n = name := by
  unfold handlePartMessage
  simp only [hname, List.mem_cons, Call.getChannelOrEmpty.injEq]
  constructor
  · rintro (h | h)
    · exact h
    · split at h
      · split at h <;> simp at h
      · simp at h
  · intro h; exact Or.inl h

/-- C18 (as amended): for MODE, JOIN and PART the only channel name looked up is
parameter 0 without its first UTF-16 code unit, whatever that unit is: a
leading `#` is stripped, and so is any other first character of the Basic
Multilingual Plane. When parameter 0 starts with a character outside that
plane, what is left starts with a lone low surrogate: the single lookup is of
code units that are the name of no channel, and nothing else is done. -/
theorem mode_join_part_drop_first_character (env : Collaborators) (server : TwitchIrcServer)
    (message : IrcMessage) :
    (∀ name, QString.removeFirst (message.parameter 0) = some name →
      (∀ n, Call.getChannelOrEmpty n ∈ handleModeMessage server message ↔ n = name) ∧
      (∀ n, Call.getChannelOrEmpty n ∈ handleJoinMessage env server message ↔ n = name) ∧
      (∀ n, Call.getChannelOrEmpty n ∈ handlePartMessage env server message ↔ n = name) ∧
      QString.utf16 name = QString.removeFirstUnits (message.parameter 0)) ∧
    (QString.removeFirst (message.parameter 0) = Option.none →
      handleModeMessage server message =
        [.getChannelOrEmptyUtf16 (QString.removeFirstUnits (message.parameter 0))] ∧
      handleJoinMessage env server message =
        [.getChannelOrEmptyUtf16 (QString.removeFirstUnits (message.parameter 0))] ∧
      handlePartMessage env server message =
        [.getChannelOrEmptyUtf16 (QString.removeFirstUnits (message.parameter 0))] ∧
      ∀ t : QString, QString.utf16 t ≠ QString.removeFirstUnits (message.parameter 0)) ∧
    (∀ rest : List Char, message.parameter 0 = String.mk ('#' :: rest) →
      QString.removeFirst (message.parameter 0) = some (String.mk rest)) ∧
    (∀ (c : Char) (rest : List Char), message.parameter 0 = String.mk (c :: rest) →
      c.toNat < 0x10000 →
      QString.removeFirst (message.parameter 0) = some (String.mk rest)) ∧
    (∀ (c : Char) (rest : List Char), message.parameter 0 = String.mk (c :: rest) →
      0x10000 ≤ c.toNat →
      QString.removeFirst (message.parameter 0) = Option.none) := by
  refine ⟨?_, ?_, ?_, ?_, ?_⟩
  · intro name hname
    exact ⟨fun n => mode_lookup_of_name server message name n hname,
      fun n => join_lookup_of_name env server message name n hname,
      fun n => part_lookup_of_name env server message name n hname,
      removeFirst_units _ _ hname⟩
  · intro hnone
    refine ⟨?_, ?_, ?_, removeFirst_none_units _ hnone⟩
    · simp [handleModeMessage, hnone]
    · simp [handleJoinMessage, hnone]
    · simp [handlePartMessage, hnone]
  · intro rest h
    rw [h]
    rfl
  · intro c rest h hc
    rw [h]
    simp [QString.removeFirst, hc]
  · intro c rest h hc
    rw [h]
    simp [QString.removeFirst, Nat.not_lt.mpr hc]

/-- C18 (as stated) fails: for parameter 0 = "forsen", without a leading `#`, MODE,
JOIN and PART look up "orsen", not "forsen". -/
theorem mode_without_hash_looks_up_shortened_name :
    handleModeMessage exampleServer exampleModeNoHash = [.getChannelOrEmpty "orsen"] ∧
    handleJoinMessage exampleEnv exampleServer exampleJoinNoHash =
      [.getChannelOrEmpty "orsen"] ∧
    handlePartMessage exampleEnv exampleServer exampleJoinNoHash =
      [.getChannelOrEmpty "orsen"] ∧
    Call.getChannelOrEmpty "forsen" ∉ handleModeMessage exampleServer exampleModeNoHash := by
  decide

/-- C18 (as amended) at "#forsen", at "forsen", and at U+1F600 followed by
"forsen", where the code units looked up start with the low surrogate 0xDE00. -/
theorem mode_join_part_drop_first_character_witness :
    Call.getChannelOrEmpty "forsen" ∈ handleModeMessage exampleServer exampleModeGrant ∧
    Call.getChannelOrEmpty "orsen" ∈
      handleJoinMessage exampleEnv exampleServer exampleJoinNoHash ∧
    handleModeMessage exampleServer exampleModeAstral =
      [.getChannelOrEmptyUtf16 [0xDE00, 102, 111, 114, 115, 101, 110]] :=
  ⟨(((mode_join_part_drop_first_character exampleEnv exampleServer exampleModeGrant).1
      "forsen" (by decide)).1 "forsen").mpr rfl,
    (((mode_join_part_drop_first_character exampleEnv exampleServer exampleJoinNoHash).1
      "orsen" (by decide)).2.1 "orsen").mpr rfl,
    ((mode_join_part_drop_first_character exampleEnv exampleServer exampleModeAstral).2.1
      (by decide)).1.trans (by decide)⟩

/-! ## USERNOTICE with an empty parameter list -/

/-- C19: for a USERNOTICE with an empty parameter list both
`parseUserNoticeMessage` and `handleUserNoticeMessage` reach the read of
`parameters[0]`, which is out of range: nothing guards it. -/
theorem userNotice_without_parameters_reads_out_of_range :
    exampleEmptyUserNotice.parameters = [] ∧
    parseUserNoticeMessage exampleEnv (.channel 0) exampleEmptyUserNotice = Option.none ∧
    handleUserNoticeMessage exampleEnv exampleServer exampleEmptyUserNotice = Option.none := by
  decide

/-! ## CLEARCHAT: refresh of the user interface -/

theorem clearChat_one_parameter_calls (env : Collaborators) (server : TwitchIrcServer)
    (message : IrcMessage) (p0 chanName : QString) (i : Nat)
    (hparams : message.parameters = [p0])
    (hname : trimChannelName p0 = some chanName)
    (hchan : server.getChannelOrEmpty chanName = .channel i) :
    handleClearChatMessage env server message =
      [.getChannelOrEmpty chanName, .disableAllMessages (.channel i),
       .addMessage (.channel i)
         (makeSystemMessage env "Chat has been cleared by a moderator.") Option.none] := by
  have hlive := live_channel server p0 chanName i hname hchan
  unfold handleClearChatMessage
  simp [hparams, IrcMessage.parameter, hname, hchan, hlive]

theorem clearChat_target_user_calls (env : Collaborators) (server : TwitchIrcServer)
    (message : IrcMessage) (p0 username chanName : QString) (rest : List QString) (i : Nat)
    (hparams : message.parameters = p0 :: username :: rest)
    (hname : trimChannelName p0 = some chanName)
    (hchan : server.getChannelOrEmpty chanName = .channel i) :
    ∃ timeoutMsg, handleClearChatMessage env server message =
      [.getChannelOrEmpty chanName, .addOrReplaceTimeout (.channel i) timeoutMsg,
       .repaintVisibleChatWidgets (.channel i)]
      ++ (if env.hideModerated then [.forceLayoutChannelViews] else []) := by
  have hlive := live_channel server p0 chanName i hname hchan
  refine ⟨MessageBuilder.timeoutMessage env username
    (if (message.tag "ban-duration").isValid then (message.tag "ban-duration").toString else "")
    (if (message.tag "ban-reason").isValid then (message.tag "ban-reason").toString else "")
    false, ?_⟩
  unfold handleClearChatMessage
  simp only [hparams, IrcMessage.parameter]
  simp only [List.length_cons, List.getD_cons_zero, List.getD_cons_succ, hname, hchan, hlive]
  simp

/-- C20 (as amended): a CLEARCHAT with exactly one parameter on a live channel
disables the messages, appends the system message and returns: it issues no
repaint request and no layout refresh. `repaintVisibleChatWidgets`, and
`forceLayoutChannelViews` when `hideModerated` is set, are issued for a
CLEARCHAT with a target user (more than one parameter). -/
theorem clearChat_repaints_only_with_target_user (env : Collaborators)
    (server : TwitchIrcServer) (message : IrcMessage) (p0 chanName : QString) (i : Nat)
    (hname : trimChannelName p0 = some chanName)
    (hchan : server.getChannelOrEmpty chanName = .channel i) :
    (message.parameters = [p0] →
      handleClearChatMessage env server message =
        [.getChannelOrEmpty chanName, .disableAllMessages (.channel i),
         .addMessage (.channel i)
           (makeSystemMessage env "Chat has been cleared by a moderator.") Option.none] ∧
      (∀ chan, Call.repaintVisibleChatWidgets chan ∉ handleClearChatMessage env server message) ∧
      Call.forceLayoutChannelViews ∉ handleClearChatMessage env server message) ∧
    (∀ username rest, message.parameters = p0 :: username :: rest →
      Call.repaintVisibleChatWidgets (.channel i) ∈ handleClearChatMessage env server message ∧
      (env.hideModerated = true →
        Call.forceLayoutChannelViews ∈ handleClearChatMessage env server message) ∧
      (env.hideModerated = false →
        Call.forceLayoutChannelViews ∉ handleClearChatMessage env server message)) := by
  refine ⟨?_, ?_⟩
  · intro hparams
    have hcalls := clearChat_one_parameter_calls env server message p0 chanName i hparams
      hname hchan
    refine ⟨hcalls, ?_, ?_⟩
    · intro chan hmem
      rw [hcalls] at hmem
      simp at hmem
    · intro hmem
      rw [hcalls] at hmem
      simp at hmem
  · intro username rest hparams
    obtain ⟨timeoutMsg, hcalls⟩ := clearChat_target_user_calls env server message p0 username
      chanName rest i hparams hname hchan
    refine ⟨?_, ?_, ?_⟩
    · rw [hcalls]; simp
    · intro h; rw [hcalls, h]; simp
    · intro h; rw [hcalls, h]; simp

/-- C20 (as stated) fails: with `hideModerated` set, a CLEARCHAT without a target
user on the live channel "forsen" makes neither a repaint nor a layout call. -/
theorem clearChat_without_target_makes_no_repaint :
    exampleEnv.hideModerated = true ∧
    exampleClearChat.parameters.length = 1 ∧
    handleClearChatMessage exampleEnv exampleServer exampleClearChat =
      [.getChannelOrEmpty "forsen", .disableAllMessages (.channel 0),
       .addMessage (.channel 0)
         (makeSystemMessage exampleEnv "Chat has been cleared by a moderator.") Option.none] ∧
    Call.repaintVisibleChatWidgets (.channel 0) ∉
      handleClearChatMessage exampleEnv exampleServer exampleClearChat ∧
    Call.forceLayoutChannelViews ∉
      handleClearChatMessage exampleEnv exampleServer exampleClearChat := by
  decide

/-- C20 (as amended) at a CLEARCHAT without and with a target user. -/
theorem clearChat_repaints_only_with_target_user_witness :
    Call.forceLayoutChannelViews ∉
      handleClearChatMessage exampleEnv exampleServer exampleClearChat ∧
    Call.repaintVisibleChatWidgets (.channel 0) ∈
      handleClearChatMessage exampleEnv exampleServer exampleTimeout ∧
    Call.forceLayoutChannelViews ∈
      handleClearChatMessage exampleEnv exampleServer exampleTimeout :=
  ⟨((clearChat_repaints_only_with_target_user exampleEnv exampleServer exampleClearChat
      "#forsen" "forsen" 0 (by decide) (by decide)).1 rfl).2.2,
    ((clearChat_repaints_only_with_target_user exampleEnv exampleServer exampleTimeout
      "#forsen" "forsen" 0 (by decide) (by decide)).2 "bob" [] rfl).1,
    ((clearChat_repaints_only_with_target_user exampleEnv exampleServer exampleTimeout
      "#forsen" "forsen" 0 (by decide) (by decide)).2 "bob" [] rfl).2.1 rfl⟩

/-! ## parseBadges of a concatenation -/

theorem splitChars_append (sep : Char) (a b : List Char) :
    splitChars sep (a ++ sep :: b) = splitChars sep a ++ splitChars sep b := by
  induction a with
  | nil => simp [splitChars]
  | cons c cs ih =>
    by_cases h : c = sep
    · subst h
      simp [splitChars, ih]
    · have hstep : ∀ l : List Char, splitChars sep (c :: l) =
          match splitChars sep l with
          | [] => [[c]]
          | p :: ps => (c :: p) :: ps := by
        intro l
        simp only [splitChars, if_neg h]
      rw [List.cons_append, hstep, hstep, ih]
      cases hs : splitChars sep cs with
      | nil =>
        have := splitChars_length sep cs
        rw [hs] at this
        simp at this
      | cons p ps => rfl

theorem split_append_comma (a b : QString) :
    QString.split (a ++ "," ++ b) ',' = QString.split a ',' ++ QString.split b ',' := by
  have hdata : (a ++ "," ++ b).data = a.data ++ ',' :: b.data := by
    simp [String.data_append]
  simp only [QString.split, hdata, splitChars_append, List.map_append]

theorem lookup_insert (m : QMap) (n v k : QString) :
    List.lookup k (QMap.insert m n v) = if k = n then some v else List.lookup k m := by
  unfold QMap.insert
  by_cases h : k = n
  · subst h
    simp [List.lookup]
  · have hb : (k == n) = false := by simpa using h
    simp only [List.lookup, hb, if_neg h]
    induction m with
    | nil => rfl
    | cons p ps ih =>
      by_cases hp : p.1 = n
      · have hkp : (k == p.1) = false := by rw [hp]; exact hb
        rw [List.filter_cons_of_neg (by simpa using hp)]
        cases p with
        | mk p1 p2 =>
          simp only at hkp
          simp only [List.lookup, hkp]
          exact ih
      · rw [List.filter_cons_of_pos (by simpa using hp)]
        cases p with
        | mk p1 p2 =>
          simp only [List.lookup]
          cases hk : k == p1 with
          | true => rfl
          | false => exact ih

theorem lookup_parseBadgesStep (m : QMap) (seg k : QString) :
    List.lookup k (parseBadgesStep m seg) =
      (List.lookup k (parseBadgesStep [] seg)).or (List.lookup k m) := by
  unfold parseBadgesStep
  split
  · next name version heq =>
    rw [lookup_insert, lookup_insert]
    by_cases h : k = name
    · simp [h]
    · simp [h, List.lookup]
  · simp [List.lookup]

theorem lookup_parseBadgesLoop (segs : List QString) (m : QMap) (k : QString) :
    List.lookup k (parseBadgesLoop m segs) =
      (List.lookup k (parseBadgesLoop [] segs)).or (List.lookup k m) := by
  induction segs generalizing m with
  | nil => simp [parseBadgesLoop, List.lookup]
  | cons seg segs ih =>
    have hm : parseBadgesLoop m (seg :: segs) =
        parseBadgesLoop (parseBadgesStep m seg) segs := rfl
    have h0 : parseBadgesLoop [] (seg :: segs) =
        parseBadgesLoop (parseBadgesStep [] seg) segs := rfl
    rw [hm, h0, ih (parseBadgesStep m seg), ih (parseBadgesStep [] seg),
      lookup_parseBadgesStep m seg k]
    cases List.lookup k (parseBadgesLoop [] segs) <;>
      cases List.lookup k (parseBadgesStep [] seg) <;> simp

theorem parseBadgesLoop_append (m : QMap) (l1 l2 : List QString) :
    parseBadgesLoop m (l1 ++ l2) = parseBadgesLoop (parseBadgesLoop m l1) l2 := by
  simp [parseBadgesLoop, List.foldl_append]

theorem lookup_parseBadges_append (a b k : QString) :
    List.lookup k (parseBadges (a ++ "," ++ b)) =
      (List.lookup k (parseBadges b)).or (List.lookup k (parseBadges a)) := by
  unfold parseBadges
  rw [split_append_comma, parseBadgesLoop_append, lookup_parseBadgesLoop]

theorem mem_of_lookup (m : QMap) (k v : QString) (h : List.lookup k m = some v) :
    (k, v) ∈ m := by
  induction m with
  | nil => simp [List.lookup] at h
  | cons p ps ih =>
    cases p with
    | mk p1 p2 =>
      simp only [List.lookup] at h
      cases hk : k == p1 with
      | true =>
        rw [hk] at h
        simp only [Option.some.injEq] at h
        have hkp : k = p1 := by simpa using hk
        rw [hkp, h]
        exact List.mem_cons_self _ _
      | false =>
        rw [hk] at h
        exact List.mem_cons_of_mem _ (ih h)

theorem contains_eq_lookup (m : QMap) (k : QString) :
    QMap.contains m k = (List.lookup k m).isSome := by
  induction m with
  | nil => rfl
  | cons p ps ih =>
    cases p with
    | mk p1 p2 =>
      have ih' : ps.any (fun p => p.1 == k) = (List.lookup k ps).isSome := ih
      simp only [QMap.contains, List.any_cons, List.lookup, ih']
      by_cases h : k = p1
      · subst h; simp
      · have h1 : (k == p1) = false := by simpa using h
        have h2 : (p1 == k) = false := by simpa using fun e : p1 = k => h e.symm
        simp [h1, h2]

theorem insert_keys_nodup (m : QMap) (n v : QString) (h : (m.map Prod.fst).Nodup) :
    ((QMap.insert m n v).map Prod.fst).Nodup := by
  unfold QMap.insert
  rw [List.map_cons, List.nodup_cons]
  refine ⟨?_, ?_⟩
  · intro hmem
    obtain ⟨p, hp, hpn⟩ := List.mem_map.mp hmem
    have := (List.mem_filter.mp hp).2
    simp at this
    exact this hpn
  · exact List.Nodup.sublist (List.Sublist.map _ (List.filter_sublist _)) h

theorem parseBadgesLoop_keys_nodup (segs : List QString) (m : QMap)
    (h : (m.map Prod.fst).Nodup) : ((parseBadgesLoop m segs).map Prod.fst).Nodup := by
  induction segs generalizing m with
  | nil => exact h
  | cons seg segs ih =>
    apply ih (parseBadgesStep m seg)
    unfold parseBadgesStep
    split
    · exact insert_keys_nodup _ _ _ h
    · exact h

theorem lookup_last_wellformed (k v seg : QString) (pre post : List QString)
    (hseg : QString.split seg '/' = [k, v])
    (hpost : ∀ seg' ∈ post, ∀ v', QString.split seg' '/' ≠ [k, v']) :
    List.lookup k (parseBadgesLoop [] (pre ++ seg :: post)) = some v := by
  have hnone : List.lookup k (parseBadgesLoop [] post) = Option.none := by
    cases hl : List.lookup k (parseBadgesLoop [] post) with
    | none => rfl
    | some v' =>
      rcases mem_parseBadgesLoop post [] (k, v') (mem_of_lookup _ _ _ hl) with
        ⟨seg', hmem, hsplit⟩ | hnil
      · exact absurd hsplit (hpost seg' hmem v')
      · simp at hnil
  have hstep : List.lookup k (parseBadgesStep [] seg) = some v := by
    unfold parseBadgesStep
    rw [hseg]
    simp [lookup_insert]
  have hcons : parseBadgesLoop (parseBadgesLoop [] pre) (seg :: post) =
      parseBadgesLoop (parseBadgesStep (parseBadgesLoop [] pre) seg) post := rfl
  rw [parseBadgesLoop_append, hcons, lookup_parseBadgesLoop, hnone,
    lookup_parseBadgesStep, hstep]
  rfl

/-- C21: the badge set of `a + "," + b` is the badge set of `a` overridden by
that of `b`: a key of `parseBadges(b)` maps to its value there, every other key
maps as in `parseBadges(a)` (also through `contains` and `value`), keys stay
unique, and for a badge name in several well-formed segments the version of
the last such segment is kept. -/
theorem parseBadges_concat_overrides (a b k : QString) :
    (∀ v, List.lookup k (parseBadges b) = some v →
      List.lookup k (parseBadges (a ++ "," ++ b)) = some v) ∧
    (List.lookup k (parseBadges b) = Option.none →
      List.lookup k (parseBadges (a ++ "," ++ b)) = List.lookup k (parseBadges a)) ∧
    QMap.contains (parseBadges (a ++ "," ++ b)) k =
      (QMap.contains (parseBadges b) k || QMap.contains (parseBadges a) k) ∧
    QMap.value (parseBadges (a ++ "," ++ b)) k =
      (if QMap.contains (parseBadges b) k then QMap.value (parseBadges b) k
       else QMap.value (parseBadges a) k) ∧
    ((parseBadges (a ++ "," ++ b)).map Prod.fst).Nodup ∧
    (∀ (s : QString) (pre post : List QString) (seg v : QString),
      QString.split s ',' = pre ++ seg :: post →
      QString.split seg '/' = [k, v] →
      (∀ seg' ∈ post, ∀ v', QString.split seg' '/' ≠ [k, v']) →
      List.lookup k (parseBadges s) = some v) := by
  have hl := lookup_parseBadges_append a b k
  refine ⟨?_, ?_, ?_, ?_, ?_, ?_⟩
  · intro v hv
    rw [hl, hv]; rfl
  · intro hn
    rw [hl, hn]; rfl
  · rw [contains_eq_lookup, contains_eq_lookup, contains_eq_lookup, hl]
    cases List.lookup k (parseBadges b) <;> cases List.lookup k (parseBadges a) <;> rfl
  · rw [contains_eq_lookup]
    unfold QMap.value
    rw [hl]
    cases List.lookup k (parseBadges b) <;> rfl
  · exact parseBadgesLoop_keys_nodup _ _ (by simp)
  · intro s pre post seg v hs hseg hpost
    unfold parseBadges
    rw [hs]
    exact lookup_last_wellformed k v seg pre post hseg hpost

/-- C21 at "vip/1,staff/1" and "vip/2,broken": "vip" takes the version of the
second string, "staff" keeps the version of the first. -/
theorem parseBadges_concat_overrides_witness :
    parseBadges ("vip/1,staff/1" ++ "," ++ "vip/2,broken") = [("vip", "2"), ("staff", "1")] ∧
    List.lookup "vip" (parseBadges ("vip/1,staff/1" ++ "," ++ "vip/2,broken")) = some "2" ∧
    List.lookup "staff" (parseBadges ("vip/1,staff/1" ++ "," ++ "vip/2,broken")) =
      some "1" :=
  ⟨by decide,
    (parseBadges_concat_overrides "vip/1,staff/1" "vip/2,broken" "vip").1 "2" (by decide),
    ((parseBadges_concat_overrides "vip/1,staff/1" "vip/2,broken" "staff").2.1
      (by decide)).trans (by decide)⟩

end Chatterino
